import Mathlib

/-!
Verification of `main.py` of the binance-mcp repository: a shallow
embedding in Lean 4 of the HTTP-client wrapper of the Binance MCP server
(`BinanceAPI`) and its Markdown-formatting tool functions, together with
theorems checking the claims of the specification against the embedded code.

Modelling conventions:
* Python dicts become insertion-ordered association lists (`Params`);
  `dict[k] = v` is `dictInsert`, which overwrites an existing key in place
  and otherwise appends at the end, exactly like CPython dicts.
* The effectful pieces are made explicit: the wall clock becomes a
  `nowMs : Int` argument, the network becomes an oracle `Net` mapping the
  request actually sent to either a JSON response or an exception string,
  and `datetime.fromtimestamp(..).strftime(fmt)` becomes an uninterpreted
  total function `fmtTime : String → Rat → String` (format string,
  seconds-since-epoch).
* `hmac.new(secret, msg, sha256).hexdigest()` is an uninterpreted
  function parameter `hmacHex : String → String → String` (key, message ↦
  lowercase hex digest); the claims are about how the digest is used, not
  about SHA-256 internals.
* Python floats are modelled as exact rationals (`Rat`); the numeric
  strings appearing in the claims ("0.1", "1234.5") format identically
  under IEEE-754 doubles and exact rationals at the precisions used.
* Exceptions become `Except String`; exception message texts are
  abbreviated, only their presence and how the tools handle them matter.
-/

/-- A Python scalar parameter value as used in this program (str or int). -/
inductive PValue where
  | str (s : String)
  | int (n : Int)
deriving DecidableEq, Repr

/-- `str(v)` for a parameter value. -/
def PValue.pyStr : PValue → String
  | .str s => s
  | .int n => toString n

/-- A Python dict of request parameters: insertion-ordered association list. -/
abbrev Params := List (String × PValue)

/-- `d[k] = v` on a Python dict: overwrite an existing key in place,
otherwise append at the end. -/
def dictInsert (ps : Params) (k : String) (v : PValue) : Params :=
  match ps with
  | [] => [(k, v)]
  | (k', v') :: rest => if k' = k then (k, v) :: rest else (k', v') :: dictInsert rest k v

/-- The keys of a parameter dict, in order. -/
def dictKeys (ps : Params) : List String := ps.map Prod.fst

/-- How many entries of `ps` carry key `k`. -/
def countKey (ps : Params) (k : String) : Nat := (ps.filter (fun p => p.1 = k)).length

/-- Characters `urllib.parse.quote_plus` leaves unescaped
(ALPHA / DIGIT / `_` / `.` / `-` / `~`). -/
def isUrlSafe (c : Char) : Bool :=
  ('a' ≤ c && c ≤ 'z') || ('A' ≤ c && c ≤ 'Z') || ('0' ≤ c && c ≤ '9') ||
  c = '_' || c = '.' || c = '-' || c = '~'

/-- The UTF-8 bytes of a character, as naturals. -/
def utf8Bytes (c : Char) : List Nat :=
  let n := c.toNat
  if n < 0x80 then [n]
  else if n < 0x800 then [0xC0 + n / 64, 0x80 + n % 64]
  else if n < 0x10000 then [0xE0 + n / 4096, 0x80 + (n / 64) % 64, 0x80 + n % 64]
  else [0xF0 + n / 262144, 0x80 + (n / 4096) % 64, 0x80 + (n / 64) % 64, 0x80 + n % 64]

/-- Uppercase hex digit. -/
def hexDigit (n : Nat) : Char :=
  if n < 10 then Char.ofNat ('0'.toNat + n) else Char.ofNat ('A'.toNat + (n - 10))

/-- Percent-encode one byte, uppercase hex as CPython does. -/
def percentByte (b : Nat) : String :=
  String.mk ['%', hexDigit (b / 16), hexDigit (b % 16)]

/-- `urllib.parse.quote_plus` on one character. -/
def quotePlusChar (c : Char) : String :=
  if isUrlSafe c then String.singleton c
  else if c = ' ' then "+"
  else String.join ((utf8Bytes c).map percentByte)

/-- `urllib.parse.quote_plus`. -/
def quotePlus (s : String) : String := String.join (s.data.map quotePlusChar)

/-- `urllib.parse.urlencode` on a dict: `k=v` pairs joined by `&`,
keys and stringified values quoted, in insertion order. -/
def urlencode (ps : Params) : String :=
  String.intercalate "&" (ps.map (fun p => quotePlus p.1 ++ "=" ++ quotePlus p.2.pyStr))

/-- Python `str.upper()` on the ASCII strings this program uses, written
over the character list so that it evaluates by kernel reduction. -/
def pyUpper (s : String) : String := String.mk (s.data.map Char.toUpper)

/-- Python slicing `s[:n]`, written over the character list. -/
def pySlice (s : String) (n : Nat) : String := String.mk (s.data.take n)

/-- The `BinanceAPI` helper class state (`main.py` lines 32-38). -/
structure BinanceAPI where
  api_key : String
  api_secret : String
  base_url : String

/-- `BinanceAPI._generate_signature` (`main.py` lines 40-46): the HMAC-SHA256
lowercase hex digest of the query string keyed by the configured secret.
`hmacHex` is the uninterpreted library primitive
`hmac.new(key, msg, sha256).hexdigest()`. -/
def BinanceAPI.generate_signature (hmacHex : String → String → String)
    (api : BinanceAPI) (query_string : String) : String :=
  hmacHex api.api_secret query_string

/-- The signing block of `BinanceAPI._request` (`main.py` lines 55-58):
given the params dict of the caller, set the timestamp entry, urlencode the
dict, then set the signature entry.  Because the Python code mutates the
dict of the caller, this function is the map from the pre-state of that
dict to its post-state. -/
def signParams (hmacHex : String → String → String) (api : BinanceAPI)
    (ps : Params) (nowMs : Int) : Params :=
  let ps1 := dictInsert ps "timestamp" (.int nowMs)
  let query_string := urlencode ps1
  dictInsert ps1 "signature" (.str (api.generate_signature hmacHex query_string))

/-- The HTTP verb actually dispatched. -/
inductive Verb where
  | GET
  | POST
deriving DecidableEq, Repr

/-- The HTTP request an invocation of `_request` hands to the httpx client. -/
structure HttpCall where
  verb : Verb
  url : String
  params : Params
  headers : List (String × String)

/-- `BinanceAPI._request` (`main.py` lines 48-71) up to the point of network
dispatch: builds headers, signs if requested, and either dispatches a
GET/POST `HttpCall` or fails with the `ValueError` for unsupported methods
(in which case no HTTP request is sent).  The response handling
(`raise_for_status`, `.json()`) belongs to the network oracle. -/
def BinanceAPI._request (hmacHex : String → String → String) (api : BinanceAPI)
    (method : String) (endpoint : String) (params : Params) (signed : Bool)
    (nowMs : Int) : Except String HttpCall :=
  let headers := if api.api_key ≠ "" then [("X-MBX-APIKEY", api.api_key)] else []
  let ps := if signed then signParams hmacHex api params nowMs else params
  let url := api.base_url ++ endpoint
  if pyUpper method = "GET" then .ok ⟨.GET, url, ps, headers⟩
  else if pyUpper method = "POST" then .ok ⟨.POST, url, ps, headers⟩
  else .error ("Unsupported HTTP method: " ++ method)

/-- A parsed JSON value as produced by `response.json()`.  JSON numbers are
modelled as exact rationals (CPython parses them to int/float). -/
inductive Json where
  | null
  | bool (b : Bool)
  | num (q : Rat)
  | str (s : String)
  | arr (xs : List Json)
  | obj (fs : List (String × Json))

/-- `data[k]` on a JSON value: KeyError when the key is missing, TypeError
when the value is not a dict. -/
def jGet (j : Json) (k : String) : Except String Json :=
  match j with
  | .obj fs =>
    match fs.lookup k with
    | some v => .ok v
    | none => .error ("KeyError: " ++ k)
  | _ => .error ("TypeError: value is not subscriptable by " ++ k)

/-- `data.get(k, default)`: AttributeError when the value is not a dict. -/
def jGetD (j : Json) (k : String) (default : Json) : Except String Json :=
  match j with
  | .obj fs =>
    match fs.lookup k with
    | some v => .ok v
    | none => .ok default
  | _ => .error "AttributeError: value has no attribute get"

/-- Python truthiness of a parsed JSON value. -/
def jTruthy (j : Json) : Bool :=
  match j with
  | .null => false
  | .bool b => b
  | .num q => q ≠ 0
  | .str s => s ≠ ""
  | .arr xs => ¬ xs.isEmpty
  | .obj fs => ¬ fs.isEmpty

/-- `for x in j`: lists yield elements, dicts their keys, strings their
characters; other values raise TypeError. -/
def jItems (j : Json) : Except String (List Json) :=
  match j with
  | .arr xs => .ok xs
  | .obj fs => .ok (fs.map (fun p => .str p.1))
  | .str s => .ok (s.data.map (fun c => .str (String.singleton c)))
  | _ => .error "TypeError: value is not iterable"

/-- `len(j)`. -/
def jLen (j : Json) : Except String Nat :=
  match j with
  | .arr xs => .ok xs.length
  | .obj fs => .ok fs.length
  | .str s => .ok s.length
  | _ => .error "TypeError: value has no len"

/-- Digits to a natural number. -/
def natFromDigits (cs : List Char) : Nat :=
  cs.foldl (fun n c => n * 10 + (c.toNat - '0'.toNat)) 0

/-- `float(s)` on the plain decimal strings this program meets:
optional sign, digits, optional fractional part.  (CPython also accepts
exponents and inf/nan, which never occur in these JSON payloads.) -/
def parseDecimal (s : String) : Except String Rat :=
  let t := (s.data.dropWhile Char.isWhitespace).reverse.dropWhile Char.isWhitespace
  let (sgn, body) : Int × List Char :=
    match t.reverse with
    | '-' :: cs => (-1, cs)
    | '+' :: cs => (1, cs)
    | cs => (1, cs)
  let ip := body.takeWhile Char.isDigit
  let rest := body.dropWhile Char.isDigit
  match rest with
  | [] =>
    if ip.isEmpty then .error ("ValueError: could not convert string to float: " ++ s)
    else .ok (mkRat (sgn * Int.ofNat (natFromDigits ip)) 1)
  | '.' :: fp =>
    if fp.all Char.isDigit ∧ ¬ (ip.isEmpty ∧ fp.isEmpty) then
      .ok (mkRat (sgn * Int.ofNat (natFromDigits ip * 10 ^ fp.length + natFromDigits fp))
            (10 ^ fp.length))
    else .error ("ValueError: could not convert string to float: " ++ s)
  | _ => .error ("ValueError: could not convert string to float: " ++ s)

/-- `float(j)`: numbers and bools convert, strings are parsed, anything
else raises TypeError. -/
def pyFloat (j : Json) : Except String Rat :=
  match j with
  | .num q => .ok q
  | .bool b => .ok (if b then 1 else 0)
  | .str s => parseDecimal s
  | _ => .error "TypeError: float() argument must be a string or a real number"

/-- `j / 1000` (used on epoch-millisecond fields before `fromtimestamp`). -/
def pyDiv1000 (j : Json) : Except String Rat :=
  match j with
  | .num q => .ok (mkRat q.num (q.den * 1000))
  | .bool b => .ok (mkRat (if b then 1 else 0) 1000)
  | _ => .error "TypeError: unsupported operand type for /"

mutual

/-- `str(j)` (`quoted = false`) and `repr(j)` (`quoted = true`) as used in
f-string interpolation.  Scalars are rendered faithfully (integers with no
decimal point); the rendering of a non-integer number is approximate, and
no claim exercises it. -/
def pyStrJ (quoted : Bool) : Json → String
  | .null => "None"
  | .bool b => if b then "True" else "False"
  | .num q => if q.den = 1 then toString q.num else toString q
  | .str s => if quoted then "\x27" ++ s ++ "\x27" else s
  | .arr xs => "[" ++ String.intercalate ", " (pyStrList xs) ++ "]"
  | .obj fs => "\x7b" ++ String.intercalate ", " (pyStrFields fs) ++ "\x7d"

/-- `repr` of each element of a JSON array. -/
def pyStrList : List Json → List String
  | [] => []
  | x :: xs => pyStrJ true x :: pyStrList xs

/-- `repr` of each binding of a JSON object. -/
def pyStrFields : List (String × Json) → List String
  | [] => []
  | (k, v) :: fs => ("\x27" ++ k ++ "\x27: " ++ pyStrJ true v) :: pyStrFields fs

end

/-- `str(j)` as used in f-string interpolation. -/
def jsonToPyStr (j : Json) : String := pyStrJ false j

/-- Round a rational to the nearest integer, ties to even
(the rounding used by the CPython fixed-point float formatting).  Written with
explicit numerator/denominator integer arithmetic so that it evaluates by
kernel reduction. -/
def roundHalfEven (q : Rat) : Int :=
  let N := q.num
  let D : Int := (q.den : Int)
  let f := Int.fdiv N D
  let r := N - f * D
  if 2 * r < D then f
  else if D < 2 * r then f + 1
  else if f % 2 = 0 then f else f + 1

/-- `f"{x:.nf}"`: fixed-point formatting with `n` digits after the point. -/
def formatFixed (q : Rat) (n : Nat) : String :=
  let scaled := roundHalfEven (mkRat (q.num * Int.ofNat (10 ^ n)) q.den)
  let a := scaled.natAbs
  let ip := a / 10 ^ n
  let fp := a % 10 ^ n
  let fpDigits := toString fp
  let fpStr := String.mk (List.replicate (n - fpDigits.length) '0') ++ fpDigits
  (if q.num < 0 then "-" else "") ++ toString ip ++ (if n = 0 then "" else "." ++ fpStr)


/-- Process-wide credential configuration (`BINANCE_API_KEY`,
`BINANCE_API_SECRET` read at startup, `main.py` lines 19-20). -/
structure Config where
  api_key : String
  api_secret : String
deriving DecidableEq, Repr

/-- One network request as handed to `BinanceAPI._request` (or, for the
announcement feed, to the bare httpx client): the observable effect of a
tool invocation. -/
structure Sent where
  method : String
  endpoint : String
  params : Params
  signed : Bool
deriving DecidableEq, Repr

/-- The network oracle: what each request comes back with — a parsed JSON
body, or the exception (`HTTPStatusError`, transport error, JSON decode
error, ...) it raises. -/
abbrev Net := Sent → Except String Json

/-- The fixed message every credential-gated tool returns when a key is
missing (`main.py`, e.g. lines 197-198). -/
def notConfiguredMsg : String :=
  "❌ API keys not configured. Please set BINANCE_API_KEY and BINANCE_API_SECRET in .env file"

/-- `if not BINANCE_API_KEY or not BINANCE_API_SECRET`. -/
def credsMissing (cfg : Config) : Bool :=
  cfg.api_key = "" || cfg.api_secret = ""

/-- `main.py` line 29. -/
def ANNOUNCEMENT_URL : String :=
  "https://www.binance.com/bapi/composite/v1/public/market/notice/get"

/-- `j == "lit"` for a JSON value against a string literal. -/
def jEqStr (j : Json) (s : String) : Bool :=
  match j with
  | .str t => t = s
  | _ => false

/-- `{"symbol": symbol.upper()} if symbol else {}` (an empty optional
string is falsy). -/
def optSymbolParams (key : String) (symbol : Option String) : Params :=
  match symbol with
  | some s => if s = "" then [] else [(key, .str (pyUpper s))]
  | none => []

/-- `' for ' + symbol if symbol else ''`. -/
def optFor (symbol : Option String) : String :=
  match symbol with
  | some s => if s = "" then "" else " for " ++ s
  | none => ""

/-- The request `fetch_latest_announcements` sends (`main.py` lines 92-99):
count clamped above at 20, page clamped below at 1. -/
def announcementsSent (count page : Int) : Sent :=
  let count := if count > 20 then 20 else count
  let page := if page < 1 then 1 else page
  ⟨"GET", ANNOUNCEMENT_URL, [("page", .int page), ("rows", .int count)], false⟩

/-- The rendering body of `fetch_latest_announcements` (`main.py`
lines 100-115), from the response (or exception) to the Markdown (or the
propagating exception the `except` clause will catch). -/
def announcementsRender (fmtTime : String → Rat → String)
    (r : Except String Json) : Except String String := do
  let data ← r
  let code ← jGet data "code"
  if jEqStr code "000000" = false then do
    let msg ← jGetD data "message" (.str "Unknown error")
    pure ("❌ API error: " ++ jsonToPyStr msg)
  else do
    let anns ← jGet data "data"
    let items ← jItems anns
    let body ← items.foldlM (fun acc ann => do
        let title ← jGetD ann "title" (.str "No Title")
        let url ← jGetD ann "url" (.str "No URL")
        let t ← jGetD ann "time" (.num 0)
        let secs ← pyDiv1000 t
        pure (acc ++ "- [" ++ jsonToPyStr title ++ "](" ++ jsonToPyStr url ++ ") _("
          ++ fmtTime "%Y-%m-%d %H:%M:%S" secs ++ ")_\n"))
      "# 📢 Binance Announcements\n\n"
    pure (if jTruthy anns then body else "# No Announcements Found\n")

/-- `fetch_latest_announcements` (`main.py` lines 80-117).  The tool reads
no credentials; `_cfg` records that the source performs no credential
check.  Returns the Markdown string and the list of requests sent. -/
def fetch_latest_announcements (_cfg : Config) (net : Net)
    (fmtTime : String → Rat → String) (count : Int) (page : Int) :
    String × List Sent :=
  let sent := announcementsSent count page
  (match announcementsRender fmtTime (net sent) with
   | .ok md => md
   | .error e => "❌ Failed to fetch announcements: " ++ e, [sent])

/-- The rendering body of `get_ticker_price` (`main.py` lines 137-151). -/
def tickerRender (r : Except String Json) : Except String String := do
  let data ← r
  match data with
  | .arr items => do
    let body ← (items.take 20).foldlM (fun acc item => do
        let sym ← jGet item "symbol"
        let pr ← jGet item "price"
        let p ← pyFloat pr
        pure (acc ++ "| " ++ jsonToPyStr sym ++ " | $" ++ formatFixed p 8 ++ " |\n"))
      "# 💰 Price Tickers (Top 20)\n\n| Symbol | Price |\n|--------|-------|\n"
    pure (if items.length > 20 then
        body ++ "\n_Showing 20 of " ++ toString items.length
          ++ " symbols. Specify a symbol for detailed info._\n"
      else body)
  | _ => do
    let sym ← jGet data "symbol"
    let pr ← jGet data "price"
    let p ← pyFloat pr
    pure ("# 💰 " ++ jsonToPyStr sym ++ " Price\n\n**Current Price:** $"
      ++ formatFixed p 8 ++ "\n")

/-- `get_ticker_price` (`main.py` lines 120-153).  No credential check in
the source, hence `_cfg` is unused. -/
def get_ticker_price (_cfg : Config) (net : Net) (symbol : Option String) :
    String × List Sent :=
  let sent : Sent := ⟨"GET", "/api/v3/ticker/price", optSymbolParams "symbol" symbol, false⟩
  (match tickerRender (net sent) with
   | .ok md => md
   | .error e => "❌ Failed to fetch ticker price: " ++ e, [sent])

/-- The rendering body of `get_24hr_ticker` (`main.py` lines 173-182). -/
def ticker24Render (symbol : String) (r : Except String Json) :
    Except String String := do
  let data ← r
  let sym ← jGet data "symbol"
  let pc ← jGet data "priceChange" >>= pyFloat
  let pcp ← jGet data "priceChangePercent" >>= pyFloat
  let hi ← jGet data "highPrice" >>= pyFloat
  let lo ← jGet data "lowPrice" >>= pyFloat
  let last ← jGet data "lastPrice" >>= pyFloat
  let vol ← jGet data "volume" >>= pyFloat
  let qv ← jGet data "quoteVolume" >>= pyFloat
  let cnt ← jGet data "count"
  pure ("# 📊 24hr Statistics for " ++ jsonToPyStr sym ++ "\n\n"
    ++ "**Price Change:** $" ++ formatFixed pc 8 ++ " (" ++ formatFixed pcp 2 ++ "%)\n"
    ++ "**High Price:** $" ++ formatFixed hi 8 ++ "\n"
    ++ "**Low Price:** $" ++ formatFixed lo 8 ++ "\n"
    ++ "**Current Price:** $" ++ formatFixed last 8 ++ "\n"
    ++ "**Volume:** " ++ formatFixed vol 2 ++ " " ++ pySlice symbol 3 ++ "\n"
    ++ "**Quote Volume:** $" ++ formatFixed qv 2 ++ "\n"
    ++ "**Number of Trades:** " ++ jsonToPyStr cnt ++ "\n")

/-- `get_24hr_ticker` (`main.py` lines 156-184).  No credential check in
the source. -/
def get_24hr_ticker (_cfg : Config) (net : Net) (symbol : String) :
    String × List Sent :=
  let sent : Sent := ⟨"GET", "/api/v3/ticker/24hr", [("symbol", .str (pyUpper symbol))], false⟩
  (match ticker24Render symbol (net sent) with
   | .ok md => md
   | .error e => "❌ Failed to fetch 24hr ticker: " ++ e, [sent])

/-- The rendering body of `get_account_info` (`main.py` lines 204-227). -/
def accountInfoRender (r : Except String Json) : Except String String := do
  let data ← r
  let mk ← jGet data "makerCommission"
  let tk ← jGet data "takerCommission"
  let ct ← jGet data "canTrade"
  let cw ← jGet data "canWithdraw"
  let cd ← jGet data "canDeposit"
  let header := "# 👤 Spot Account Information\n\n"
    ++ "**Maker Commission:** " ++ jsonToPyStr mk ++ " bps\n"
    ++ "**Taker Commission:** " ++ jsonToPyStr tk ++ " bps\n"
    ++ "**Can Trade:** " ++ (if jTruthy ct then "✅" else "❌") ++ "\n"
    ++ "**Can Withdraw:** " ++ (if jTruthy cw then "✅" else "❌") ++ "\n"
    ++ "**Can Deposit:** " ++ (if jTruthy cd then "✅" else "❌") ++ "\n\n"
  let balancesJ ← jGet data "balances"
  let items ← jItems balancesJ
  let balances ← items.filterM (fun b => do
    let f ← jGet b "free" >>= pyFloat
    if 0 < f then pure true
    else do
      let l ← jGet b "locked" >>= pyFloat
      pure (decide (0 < l)))
  if balances.isEmpty then
    pure (header ++ "## 💼 No balances found\n")
  else
    balances.foldlM (fun acc b => do
        let f ← jGet b "free" >>= pyFloat
        let l ← jGet b "locked" >>= pyFloat
        let asset ← jGet b "asset"
        pure (acc ++ "| " ++ jsonToPyStr asset ++ " | " ++ formatFixed f 8 ++ " | "
          ++ formatFixed l 8 ++ " | " ++ formatFixed (f + l) 8 ++ " |\n"))
      (header ++ "## 💼 Non-Zero Balances\n\n| Asset | Free | Locked | Total |\n|-------|------|--------|-------|\n")

/-- `get_account_info` (`main.py` lines 189-229): credential-gated. -/
def get_account_info (cfg : Config) (net : Net) : String × List Sent :=
  if credsMissing cfg then (notConfiguredMsg, [])
  else
    let sent : Sent := ⟨"GET", "/api/v3/account", [], true⟩
    (match accountInfoRender (net sent) with
     | .ok md => md
     | .error e => "❌ Failed to fetch account info: " ++ e, [sent])

/-- The rendering body of `get_spot_open_orders` (`main.py` lines 252-269). -/
def spotOpenOrdersRender (fmtTime : String → Rat → String)
    (symbol : Option String) (r : Except String Json) : Except String String := do
  let orders ← r
  if jTruthy orders = false then
    pure ("# 📋 No Open Orders" ++ optFor symbol ++ "\n")
  else do
    let n ← jLen orders
    let items ← jItems orders
    items.foldlM (fun acc order => do
        let oid ← jGet order "orderId"
        let sym ← jGet order "symbol"
        let side ← jGet order "side"
        let typ ← jGet order "type"
        let price ← jGet order "price" >>= pyFloat
        let oq ← jGet order "origQty" >>= pyFloat
        let xq ← jGet order "executedQty" >>= pyFloat
        let st ← jGet order "status"
        let tm ← jGet order "time" >>= pyDiv1000
        pure (acc ++ "### Order #" ++ jsonToPyStr oid ++ "\n"
          ++ "- **Symbol:** " ++ jsonToPyStr sym ++ "\n"
          ++ "- **Side:** " ++ jsonToPyStr side ++ "\n"
          ++ "- **Type:** " ++ jsonToPyStr typ ++ "\n"
          ++ "- **Price:** $" ++ formatFixed price 8 ++ "\n"
          ++ "- **Original Qty:** " ++ formatFixed oq 8 ++ "\n"
          ++ "- **Executed Qty:** " ++ formatFixed xq 8 ++ "\n"
          ++ "- **Status:** " ++ jsonToPyStr st ++ "\n"
          ++ "- **Time:** " ++ fmtTime "%Y-%m-%d %H:%M:%S" tm ++ "\n\n"))
      ("# 📋 Open Spot Orders" ++ optFor symbol ++ "\n\n**Total Open Orders:** "
        ++ toString n ++ "\n\n")

/-- `get_spot_open_orders` (`main.py` lines 232-271): credential-gated. -/
def get_spot_open_orders (cfg : Config) (net : Net)
    (fmtTime : String → Rat → String) (symbol : Option String) :
    String × List Sent :=
  if credsMissing cfg then (notConfiguredMsg, [])
  else
    let sent : Sent := ⟨"GET", "/api/v3/openOrders", optSymbolParams "symbol" symbol, true⟩
    (match spotOpenOrdersRender fmtTime symbol (net sent) with
     | .ok md => md
     | .error e => "❌ Failed to fetch open orders: " ++ e, [sent])

/-- The request parameters of `get_spot_trade_history` (`main.py` line 291):
the limit is clamped above at 1000. -/
def spotTradeHistoryParams (symbol : String) (limit : Int) : Params :=
  [("symbol", .str (pyUpper symbol)), ("limit", .int (min limit 1000))]

/-- The rendering body of `get_spot_trade_history` (`main.py`
lines 295-312). -/
def spotTradeHistoryRender (fmtTime : String → Rat → String)
    (symbol : String) (r : Except String Json) : Except String String := do
  let trades ← r
  if jTruthy trades = false then
    pure ("# 📜 No Trade History for " ++ symbol ++ "\n")
  else do
    let n ← jLen trades
    let items ← jItems trades
    items.foldlM (fun acc trade => do
        let tm ← jGet trade "time" >>= pyDiv1000
        let isb ← jGet trade "isBuyer"
        let price ← jGet trade "price" >>= pyFloat
        let qty ← jGet trade "qty" >>= pyFloat
        let comm ← jGet trade "commission" >>= pyFloat
        let commAsset ← jGet trade "commissionAsset"
        pure (acc ++ "| " ++ fmtTime "%m-%d %H:%M" tm ++ " | "
          ++ (if jTruthy isb then "🟢 BUY" else "🔴 SELL") ++ " | $"
          ++ formatFixed price 8 ++ " | " ++ formatFixed qty 8 ++ " | "
          ++ formatFixed comm 8 ++ " " ++ jsonToPyStr commAsset ++ " | $"
          ++ formatFixed (price * qty) 2 ++ " |\n"))
      ("# 📜 Trade History for " ++ symbol ++ "\n\n**Total Trades:** " ++ toString n
        ++ "\n\n| Time | Side | Price | Quantity | Commission | Total |\n|------|------|-------|----------|------------|-------|\n")

/-- `get_spot_trade_history` (`main.py` lines 274-314): credential-gated,
limit clamped above at 1000. -/
def get_spot_trade_history (cfg : Config) (net : Net)
    (fmtTime : String → Rat → String) (symbol : String) (limit : Int) :
    String × List Sent :=
  if credsMissing cfg then (notConfiguredMsg, [])
  else
    let sent : Sent := ⟨"GET", "/api/v3/myTrades", spotTradeHistoryParams symbol limit, true⟩
    (match spotTradeHistoryRender fmtTime symbol (net sent) with
     | .ok md => md
     | .error e => "❌ Failed to fetch trade history: " ++ e, [sent])

/-- The rendering body of `get_futures_account_balance` (`main.py`
lines 331-369). -/
def futuresAccountRender (r : Except String Json) : Except String String := do
  let data ← r
  let twb ← jGet data "totalWalletBalance" >>= pyFloat
  let tup ← jGet data "totalUnrealizedProfit" >>= pyFloat
  let tmb ← jGet data "totalMarginBalance" >>= pyFloat
  let ab ← jGet data "availableBalance" >>= pyFloat
  let mwa ← jGet data "maxWithdrawAmount" >>= pyFloat
  let header := "# 🎯 USDT-M Futures Account\n\n"
    ++ "**Total Wallet Balance:** $" ++ formatFixed twb 2 ++ "\n"
    ++ "**Total Unrealized Profit:** $" ++ formatFixed tup 2 ++ "\n"
    ++ "**Total Margin Balance:** $" ++ formatFixed tmb 2 ++ "\n"
    ++ "**Available Balance:** $" ++ formatFixed ab 2 ++ "\n"
    ++ "**Max Withdraw Amount:** $" ++ formatFixed mwa 2 ++ "\n\n"
  let assetsJ ← jGet data "assets"
  let aItems ← jItems assetsJ
  let assets ← aItems.filterM (fun a => do
    let wb ← jGet a "walletBalance" >>= pyFloat
    pure (decide (0 < wb)))
  let md1 ←
    if assets.isEmpty then pure header
    else do
      let rows ← assets.foldlM (fun acc a => do
          let nm ← jGet a "asset"
          let wb ← jGet a "walletBalance" >>= pyFloat
          let up ← jGet a "unrealizedProfit" >>= pyFloat
          let mb ← jGet a "marginBalance" >>= pyFloat
          pure (acc ++ "| " ++ jsonToPyStr nm ++ " | " ++ formatFixed wb 2 ++ " | "
            ++ formatFixed up 2 ++ " | " ++ formatFixed mb 2 ++ " |\n"))
        (header ++ "## 💼 Asset Balances\n\n| Asset | Wallet Balance | Unrealized Profit | Margin Balance |\n|-------|----------------|-------------------|----------------|\n")
      pure (rows ++ "\n")
  let posJ ← jGet data "positions"
  let pItems ← jItems posJ
  let positions ← pItems.filterM (fun p => do
    let pa ← jGet p "positionAmt" >>= pyFloat
    pure (decide (pa ≠ 0)))
  if positions.isEmpty then
    pure (md1 ++ "## 📊 No Active Positions\n")
  else
    positions.foldlM (fun acc p => do
        let pa ← jGet p "positionAmt" >>= pyFloat
        let sym ← jGet p "symbol"
        let ep ← jGet p "entryPrice" >>= pyFloat
        let up ← jGet p "unrealizedProfit" >>= pyFloat
        let lev ← jGet p "leverage"
        let iso ← jGet p "isolated"
        pure (acc ++ "### " ++ jsonToPyStr sym ++ " ("
          ++ (if 0 < pa then "🟢 LONG" else "🔴 SHORT") ++ ")\n"
          ++ "- **Position Amount:** " ++ formatFixed pa 8 ++ "\n"
          ++ "- **Entry Price:** $" ++ formatFixed ep 8 ++ "\n"
          ++ "- **Unrealized Profit:** $" ++ formatFixed up 2 ++ "\n"
          ++ "- **Leverage:** " ++ jsonToPyStr lev ++ "x\n"
          ++ "- **Isolated:** " ++ (if jTruthy iso then "✅" else "❌") ++ "\n\n"))
      (md1 ++ "## 📊 Active Positions\n\n")

/-- `get_futures_account_balance` (`main.py` lines 319-371):
credential-gated. -/
def get_futures_account_balance (cfg : Config) (net : Net) :
    String × List Sent :=
  if credsMissing cfg then (notConfiguredMsg, [])
  else
    let sent : Sent := ⟨"GET", "/fapi/v2/account", [], true⟩
    (match futuresAccountRender (net sent) with
     | .ok md => md
     | .error e => "❌ Failed to fetch futures account: " ++ e, [sent])

/-- The rendering body of `get_futures_open_orders` (`main.py`
lines 392-412). -/
def futuresOpenOrdersRender (fmtTime : String → Rat → String)
    (symbol : Option String) (r : Except String Json) : Except String String := do
  let orders ← r
  if jTruthy orders = false then
    pure ("# 📋 No Open Futures Orders" ++ optFor symbol ++ "\n")
  else do
    let n ← jLen orders
    let items ← jItems orders
    items.foldlM (fun acc order => do
        let oid ← jGet order "orderId"
        let sym ← jGet order "symbol"
        let side ← jGet order "side"
        let typ ← jGet order "type"
        let price ← jGet order "price" >>= pyFloat
        let oq ← jGet order "origQty" >>= pyFloat
        let xq ← jGet order "executedQty" >>= pyFloat
        let st ← jGet order "status"
        let ro ← jGet order "reduceOnly"
        let tm ← jGet order "time" >>= pyDiv1000
        pure (acc ++ "### Order #" ++ jsonToPyStr oid ++ "\n"
          ++ "- **Symbol:** " ++ jsonToPyStr sym ++ "\n"
          ++ "- **Side:** " ++ jsonToPyStr side ++ "\n"
          ++ "- **Type:** " ++ jsonToPyStr typ ++ "\n"
          ++ "- **Price:** $" ++ formatFixed price 8 ++ "\n"
          ++ "- **Original Qty:** " ++ formatFixed oq 8 ++ "\n"
          ++ "- **Executed Qty:** " ++ formatFixed xq 8 ++ "\n"
          ++ "- **Status:** " ++ jsonToPyStr st ++ "\n"
          ++ "- **Reduce Only:** " ++ (if jTruthy ro then "✅" else "❌") ++ "\n"
          ++ "- **Time:** " ++ fmtTime "%Y-%m-%d %H:%M:%S" tm ++ "\n\n"))
      ("# 📋 Open Futures Orders" ++ optFor symbol ++ "\n\n**Total Open Orders:** "
        ++ toString n ++ "\n\n")

/-- `get_futures_open_orders` (`main.py` lines 374-414): credential-gated. -/
def get_futures_open_orders (cfg : Config) (net : Net)
    (fmtTime : String → Rat → String) (symbol : Option String) :
    String × List Sent :=
  if credsMissing cfg then (notConfiguredMsg, [])
  else
    let sent : Sent := ⟨"GET", "/fapi/v1/openOrders", optSymbolParams "symbol" symbol, true⟩
    (match futuresOpenOrdersRender fmtTime symbol (net sent) with
     | .ok md => md
     | .error e => "❌ Failed to fetch futures open orders: " ++ e, [sent])

/-- Insertion-ordered running totals: `total_income.setdefault(asset, 0);
total_income[asset] += amount` (`main.py` lines 458-460). -/
def ratDictAdd (d : List (String × Rat)) (k : String) (v : Rat) :
    List (String × Rat) :=
  match d with
  | [] => [(k, v)]
  | (k', v') :: rest =>
    if k' = k then (k, v' + v) :: rest else (k', v') :: ratDictAdd rest k v

/-- The request parameters of `get_futures_income_history` (`main.py`
lines 435-439): limit clamped above at 1000, then optional symbol and
income type. -/
def futuresIncomeParams (symbol income_type : Option String) (limit : Int) :
    Params :=
  [("limit", .int (min limit 1000))]
    ++ optSymbolParams "symbol" symbol
    ++ optSymbolParams "incomeType" income_type

/-- The rendering body of `get_futures_income_history` (`main.py`
lines 443-468). -/
def futuresIncomeRender (fmtTime : String → Rat → String)
    (r : Except String Json) : Except String String := do
  let incomes ← r
  if jTruthy incomes = false then
    pure "# 💸 No Income History Found\n"
  else do
    let n ← jLen incomes
    let items ← jItems incomes
    let res ← items.foldlM (fun (acc : String × List (String × Rat)) income => do
        let tm ← jGet income "time" >>= pyDiv1000
        let amt ← jGet income "income" >>= pyFloat
        let assetJ ← jGet income "asset"
        let asset := jsonToPyStr assetJ
        let totals := ratDictAdd acc.2 asset amt
        let sym ← jGet income "symbol"
        let ity ← jGet income "incomeType"
        pure (acc.1 ++ "| " ++ fmtTime "%m-%d %H:%M" tm ++ " | " ++ jsonToPyStr sym
          ++ " | " ++ jsonToPyStr ity ++ " | " ++ formatFixed amt 8 ++ " | "
          ++ asset ++ " |\n", totals))
      ("# 💸 Futures Income History\n\n**Total Records:** " ++ toString n
        ++ "\n\n| Time | Symbol | Type | Income | Asset |\n|------|--------|------|--------|-------|\n",
       ([] : List (String × Rat)))
    pure (res.1 ++ "\n## 📈 Total Income by Asset\n\n"
      ++ String.join (res.2.map (fun p => "- **" ++ p.1 ++ ":** " ++ formatFixed p.2 8 ++ "\n")))

/-- `get_futures_income_history` (`main.py` lines 417-470):
credential-gated, limit clamped above at 1000. -/
def get_futures_income_history (cfg : Config) (net : Net)
    (fmtTime : String → Rat → String) (symbol income_type : Option String)
    (limit : Int) : String × List Sent :=
  if credsMissing cfg then (notConfiguredMsg, [])
  else
    let sent : Sent := ⟨"GET", "/fapi/v1/income", futuresIncomeParams symbol income_type limit, true⟩
    (match futuresIncomeRender fmtTime (net sent) with
     | .ok md => md
     | .error e => "❌ Failed to fetch income history: " ++ e, [sent])

/-- The rendering body of `get_margin_account` (`main.py` lines 487-512). -/
def marginAccountRender (r : Except String Json) : Except String String := do
  let data ← r
  let ml ← jGet data "marginLevel" >>= pyFloat
  let ta ← jGet data "totalAssetOfBtc" >>= pyFloat
  let tl ← jGet data "totalLiabilityOfBtc" >>= pyFloat
  let tna ← jGet data "totalNetAssetOfBtc" >>= pyFloat
  let te ← jGet data "tradeEnabled"
  let xe ← jGet data "transferEnabled"
  let be ← jGet data "borrowEnabled"
  let header := "# 🔄 Cross Margin Account\n\n"
    ++ "**Margin Level:** " ++ formatFixed ml 4 ++ "\n"
    ++ "**Total Asset (BTC):** " ++ formatFixed ta 8 ++ "\n"
    ++ "**Total Liability (BTC):** " ++ formatFixed tl 8 ++ "\n"
    ++ "**Total Net Asset (BTC):** " ++ formatFixed tna 8 ++ "\n"
    ++ "**Can Trade:** " ++ (if jTruthy te then "✅" else "❌") ++ "\n"
    ++ "**Can Transfer:** " ++ (if jTruthy xe then "✅" else "❌") ++ "\n"
    ++ "**Can Borrow:** " ++ (if jTruthy be then "✅" else "❌") ++ "\n\n"
  let uaJ ← jGet data "userAssets"
  let items ← jItems uaJ
  let assets ← items.filterM (fun a => do
    let na ← jGet a "netAsset" >>= pyFloat
    if na ≠ 0 then pure true
    else do
      let bo ← jGet a "borrowed" >>= pyFloat
      pure (decide (0 < bo)))
  if assets.isEmpty then
    pure (header ++ "## 💼 No margin assets found\n")
  else
    assets.foldlM (fun acc a => do
        let nm ← jGet a "asset"
        let fr ← jGet a "free" >>= pyFloat
        let lk ← jGet a "locked" >>= pyFloat
        let bo ← jGet a "borrowed" >>= pyFloat
        let itr ← jGet a "interest" >>= pyFloat
        let na ← jGet a "netAsset" >>= pyFloat
        pure (acc ++ "| " ++ jsonToPyStr nm ++ " | " ++ formatFixed fr 8 ++ " | "
          ++ formatFixed lk 8 ++ " | " ++ formatFixed bo 8 ++ " | "
          ++ formatFixed itr 8 ++ " | " ++ formatFixed na 8 ++ " |\n"))
      (header ++ "## 💼 Asset Details\n\n| Asset | Free | Locked | Borrowed | Interest | Net Asset |\n|-------|------|--------|----------|----------|----------|\n")

/-- `get_margin_account` (`main.py` lines 475-514): credential-gated. -/
def get_margin_account (cfg : Config) (net : Net) : String × List Sent :=
  if credsMissing cfg then (notConfiguredMsg, [])
  else
    let sent : Sent := ⟨"GET", "/sapi/v1/margin/account", [], true⟩
    (match marginAccountRender (net sent) with
     | .ok md => md
     | .error e => "❌ Failed to fetch margin account: " ++ e, [sent])

/-- One base/quote asset block of the isolated-margin rendering
(`main.py` lines 553-567). -/
def isolatedAssetBlock (title : String) (a : Json) : Except String String := do
  let nm ← jGet a "asset"
  let fr ← jGet a "free" >>= pyFloat
  let bo ← jGet a "borrowed" >>= pyFloat
  let itr ← jGet a "interest" >>= pyFloat
  let na ← jGet a "netAsset" >>= pyFloat
  pure ("### " ++ title ++ "\n"
    ++ "- **Asset:** " ++ jsonToPyStr nm ++ "\n"
    ++ "- **Free:** " ++ formatFixed fr 8 ++ "\n"
    ++ "- **Borrowed:** " ++ formatFixed bo 8 ++ "\n"
    ++ "- **Interest:** " ++ formatFixed itr 8 ++ "\n"
    ++ "- **Net Asset:** " ++ formatFixed na 8 ++ "\n\n")

/-- The rendering body of `get_isolated_margin_account` (`main.py`
lines 535-569). -/
def isolatedMarginRender (r : Except String Json) : Except String String := do
  let data ← r
  let assetsJ ← jGetD data "assets" (.arr [])
  if jTruthy assetsJ = false then
    pure "# 🔄 No Isolated Margin Accounts Found\n"
  else do
    let n ← jLen assetsJ
    let tnaJ ← jGetD data "totalNetAssetOfBtc" (.num 0)
    let tna ← pyFloat tnaJ
    let items ← jItems assetsJ
    items.foldlM (fun acc asset => do
        let sym ← jGet asset "symbol"
        let ml ← jGet asset "marginLevel" >>= pyFloat
        let mr ← jGet asset "marginRatio" >>= pyFloat
        let lp ← jGet asset "liquidatePrice" >>= pyFloat
        let te ← jGet asset "tradeEnabled"
        let base ← jGet asset "baseAsset"
        let baseMd ← isolatedAssetBlock "Base Asset" base
        let quote ← jGet asset "quoteAsset"
        let quoteMd ← isolatedAssetBlock "Quote Asset" quote
        pure (acc ++ "## " ++ jsonToPyStr sym ++ "\n\n"
          ++ "**Margin Level:** " ++ formatFixed ml 4 ++ "\n"
          ++ "**Margin Ratio:** " ++ formatFixed mr 4 ++ "\n"
          ++ "**Liquidate Price:** $" ++ formatFixed lp 8 ++ "\n"
          ++ "**Can Trade:** " ++ (if jTruthy te then "✅" else "❌") ++ "\n\n"
          ++ baseMd ++ quoteMd))
      ("# 🔄 Isolated Margin Accounts\n\n**Total Accounts:** " ++ toString n
        ++ "\n**Total Net Asset (BTC):** " ++ formatFixed tna 8 ++ "\n\n")

/-- `get_isolated_margin_account` (`main.py` lines 517-571):
credential-gated. -/
def get_isolated_margin_account (cfg : Config) (net : Net)
    (symbol : Option String) : String × List Sent :=
  if credsMissing cfg then (notConfiguredMsg, [])
  else
    let sent : Sent := ⟨"GET", "/sapi/v1/margin/isolated/account", optSymbolParams "symbols" symbol, true⟩
    (match isolatedMarginRender (net sent) with
     | .ok md => md
     | .error e => "❌ Failed to fetch isolated margin account: " ++ e, [sent])

/-- `d[k] = v` on an insertion-ordered string-to-rational dict. -/
def ratDictInsert (d : List (String × Rat)) (k : String) (v : Rat) :
    List (String × Rat) :=
  match d with
  | [] => [(k, v)]
  | (k', v') :: rest =>
    if k' = k then (k, v) :: rest else (k', v') :: ratDictInsert rest k v

/-- The spot section body of `get_asset_distribution` (`main.py`
lines 590-601): the non-zero balance totals, sorted by value descending
(a stable sort, as `sorted(..., reverse=True)` is). -/
def assetDistSpotBody (r : Except String Json) : Except String String := do
  let data ← r
  let balsJ ← jGet data "balances"
  let items ← jItems balsJ
  let pairs ← items.foldlM (fun (acc : List (String × Rat)) b => do
      let f ← jGet b "free" >>= pyFloat
      let keep ←
        if 0 < f then pure true
        else do
          let l ← jGet b "locked" >>= pyFloat
          pure (decide (0 < l))
      if keep then do
        let asset ← jGet b "asset"
        let f2 ← jGet b "free" >>= pyFloat
        let l2 ← jGet b "locked" >>= pyFloat
        pure (ratDictInsert acc (jsonToPyStr asset) (f2 + l2))
      else pure acc)
    []
  let sorted := pairs.mergeSort (fun a b => decide (b.2 ≤ a.2))
  pure ("## 💼 Spot Account\n\n"
    ++ (if pairs.isEmpty then "_No spot balances_\n"
        else String.join (sorted.map (fun p => "- **" ++ p.1 ++ ":** " ++ formatFixed p.2 8 ++ "\n")))
    ++ "\n")

/-- The futures section of `get_asset_distribution` as a step trace
(`main.py` lines 605-619): the Markdown this try block has already
appended when an exception is raised, paired with that exception (or
`none` on success).  The wallet balance is parsed before the heading is
appended, so a failure up to that point leaves no partial text; the
unrealized-profit parse and the positions comprehension run only after
their preceding lines were appended, so a failure there leaves them in
the accumulator. -/
def assetDistFuturesSteps (r : Except String Json) : String × Option String :=
  match r with
  | .error e => ("", some e)
  | .ok data =>
    match jGet data "totalWalletBalance" >>= pyFloat with
    | .error e => ("", some e)
    | .ok twb =>
      let acc := "## 🎯 USDT-M Futures\n\n- **Total Wallet Balance:** $"
        ++ formatFixed twb 2 ++ "\n"
      match jGet data "totalUnrealizedProfit" >>= pyFloat with
      | .error e => (acc, some e)
      | .ok tup =>
        let acc := acc ++ "- **Unrealized Profit:** $" ++ formatFixed tup 2 ++ "\n"
        match (do
            let posJ ← jGet data "positions"
            let pItems ← jItems posJ
            pItems.filterM (fun p => do
              let pa ← jGet p "positionAmt" >>= pyFloat
              pure (decide (pa ≠ 0)))) with
        | .error e => (acc, some e)
        | .ok positions =>
          (acc
            ++ (if positions.isEmpty then ""
                else "- **Active Positions:** " ++ toString positions.length ++ "\n")
            ++ "\n", none)

/-- The margin section of `get_asset_distribution` as a step trace
(`main.py` lines 621-629): the heading is appended right after the
request succeeds, before either numeric field is parsed, so a parse
failure leaves the heading (and possibly the net-asset line) in the
accumulator. -/
def assetDistMarginSteps (r : Except String Json) : String × Option String :=
  match r with
  | .error e => ("", some e)
  | .ok data =>
    let acc := "## 🔄 Cross Margin\n\n"
    match jGet data "totalNetAssetOfBtc" >>= pyFloat with
    | .error e => (acc, some e)
    | .ok tna =>
      let acc := acc ++ "- **Total Net Asset (BTC):** " ++ formatFixed tna 8 ++ "\n"
      match jGet data "marginLevel" >>= pyFloat with
      | .error e => (acc, some e)
      | .ok ml => (acc ++ "- **Margin Level:** " ++ formatFixed ml 4 ++ "\n\n", none)

/-- The three requests `get_asset_distribution` sends, in order. -/
def assetDistSpotSent : Sent := ⟨"GET", "/api/v3/account", [], true⟩

/-- The futures request of `get_asset_distribution`. -/
def assetDistFuturesSent : Sent := ⟨"GET", "/fapi/v2/account", [], true⟩

/-- The margin request of `get_asset_distribution`. -/
def assetDistMarginSent : Sent := ⟨"GET", "/sapi/v1/margin/account", [], true⟩

/-- The spot section, with its failure rendered inline (`main.py`
lines 589-603).  In this try block every fallible step (the request and
the whole balance comprehension) runs before the first append, and the
appends that follow cannot raise, so an exception always finds an empty
partial text and the section is the error line alone. -/
def assetDistSpotSection (r : Except String Json) : String :=
  match assetDistSpotBody r with
  | .ok s => s
  | .error e => "## 💼 Spot Account\n\n❌ Error: " ++ e ++ "\n\n"

/-- The futures section: the partial Markdown already appended, followed
by the inline error heading when the try block raised. -/
def assetDistFuturesSection (r : Except String Json) : String :=
  match assetDistFuturesSteps r with
  | (txt, none) => txt
  | (txt, some e) => txt ++ "## 🎯 USDT-M Futures\n\n❌ Error: " ++ e ++ "\n\n"

/-- The margin section: the partial Markdown already appended, followed
by the inline error heading when the try block raised. -/
def assetDistMarginSection (r : Except String Json) : String :=
  match assetDistMarginSteps r with
  | (txt, none) => txt
  | (txt, some e) => txt ++ "## 🔄 Cross Margin\n\n❌ Error: " ++ e ++ "\n\n"

/-- `get_asset_distribution` (`main.py` lines 576-631): credential-gated;
three independent sub-calls, each wrapped in its own try/except, every
failure rendered inline so no single failure aborts the others. -/
def get_asset_distribution (cfg : Config) (net : Net) : String × List Sent :=
  if credsMissing cfg then (notConfiguredMsg, [])
  else
    ("# 🎯 Portfolio Distribution Snapshot\n\n"
      ++ assetDistSpotSection (net assetDistSpotSent)
      ++ assetDistFuturesSection (net assetDistFuturesSent)
      ++ assetDistMarginSection (net assetDistMarginSent),
     [assetDistSpotSent, assetDistFuturesSent, assetDistMarginSent])

/-- The rendering body of `get_deposit_address` (`main.py` lines 655-672). -/
def depositAddressRender (coin : String) (r : Except String Json) :
    Except String String := do
  let data ← r
  let header := "# 📥 Deposit Address for " ++ pyUpper coin ++ "\n\n"
  match data with
  | .arr addrs =>
    addrs.foldlM (fun acc addr => do
        let netw ← jGetD addr "network" (.str "Unknown")
        let a ← jGet addr "address"
        let tag ← jGetD addr "tag" .null
        pure (acc ++ "## Network: " ++ jsonToPyStr netw ++ "\n"
          ++ "- **Address:** `" ++ jsonToPyStr a ++ "`\n"
          ++ (if jTruthy tag then "- **Tag/Memo:** `" ++ jsonToPyStr tag ++ "`\n" else "")
          ++ "\n"))
      header
  | _ => do
    let netw ← jGetD data "network" (.str "Unknown")
    let a ← jGet data "address"
    let tag ← jGetD data "tag" .null
    pure (header ++ "**Network:** " ++ jsonToPyStr netw ++ "\n"
      ++ "**Address:** `" ++ jsonToPyStr a ++ "`\n"
      ++ (if jTruthy tag then "**Tag/Memo:** `" ++ jsonToPyStr tag ++ "`\n" else ""))

/-- `get_deposit_address` (`main.py` lines 634-674): credential-gated. -/
def get_deposit_address (cfg : Config) (net : Net) (coin : String)
    (network : Option String) : String × List Sent :=
  if credsMissing cfg then (notConfiguredMsg, [])
  else
    let ps : Params := [("coin", .str (pyUpper coin))] ++ optSymbolParams "network" network
    let sent : Sent := ⟨"GET", "/sapi/v1/capital/deposit/address", ps, true⟩
    (match depositAddressRender coin (net sent) with
     | .ok md => md
     | .error e => "❌ Failed to fetch deposit address: " ++ e, [sent])

/-- `dict.get(status, default)` lookup on the small integer-keyed status
tables: a JSON number equal to an integer key (or a bool, since Python
bools compare equal to 0/1) hits the table. -/
def statusLookup (table : List (Int × String)) (j : Json) : Option String :=
  let key : Option Int :=
    match j with
    | .num q => if q.den = 1 then some q.num else none
    | .bool b => some (if b then 1 else 0)
    | _ => none
  match key with
  | some k => table.lookup k
  | none => none

/-- The deposit status table (`main.py` line 711). -/
def depositStatusMap : List (Int × String) :=
  [(0, "⏳ Pending"), (1, "✅ Success"), (6, "⚠️ Credited")]

/-- The withdrawal status table (`main.py` lines 757-765). -/
def withdrawStatusMap : List (Int × String) :=
  [(0, "📧 Email Sent"), (1, "❌ Cancelled"), (2, "⏳ Awaiting Approval"),
   (3, "🚫 Rejected"), (4, "⚙️ Processing"), (5, "❌ Failure"), (6, "✅ Completed")]

/-- The request parameters shared by `get_deposit_history` and
`get_withdraw_history` (`main.py` lines 695-699 and 741-745): limit
clamped above at 1000, optional coin, optional integer status (sent
whenever it is not None, including 0). -/
def capitalHistoryParams (coin : Option String) (status : Option Int)
    (limit : Int) : Params :=
  [("limit", .int (min limit 1000))]
    ++ optSymbolParams "coin" coin
    ++ (match status with
        | some s => [("status", .int s)]
        | none => [])

/-- The rendering body of `get_deposit_history` (`main.py` lines 701-718). -/
def depositHistoryRender (fmtTime : String → Rat → String)
    (r : Except String Json) : Except String String := do
  let deposits ← r
  if jTruthy deposits = false then
    pure "# 📥 No Deposit History Found\n"
  else do
    let n ← jLen deposits
    let items ← jItems deposits
    items.foldlM (fun acc dep => do
        let tm ← jGet dep "insertTime" >>= pyDiv1000
        let st ← jGet dep "status"
        let stText := (statusLookup depositStatusMap st).getD ("Status " ++ jsonToPyStr st)
        let coin ← jGet dep "coin"
        let amt ← jGet dep "amount" >>= pyFloat
        let netw ← jGetD dep "network" (.str "N/A")
        pure (acc ++ "| " ++ fmtTime "%m-%d %H:%M" tm ++ " | " ++ jsonToPyStr coin
          ++ " | " ++ formatFixed amt 8 ++ " | " ++ jsonToPyStr netw ++ " | "
          ++ stText ++ " |\n"))
      ("# 📥 Deposit History\n\n**Total Records:** " ++ toString n
        ++ "\n\n| Time | Coin | Amount | Network | Status |\n|------|------|--------|---------|--------|\n")

/-- `get_deposit_history` (`main.py` lines 677-720): credential-gated,
limit clamped above at 1000. -/
def get_deposit_history (cfg : Config) (net : Net)
    (fmtTime : String → Rat → String) (coin : Option String)
    (status : Option Int) (limit : Int) : String × List Sent :=
  if credsMissing cfg then (notConfiguredMsg, [])
  else
    let sent : Sent := ⟨"GET", "/sapi/v1/capital/deposit/hisrec", capitalHistoryParams coin status limit, true⟩
    (match depositHistoryRender fmtTime (net sent) with
     | .ok md => md
     | .error e => "❌ Failed to fetch deposit history: " ++ e, [sent])

/-- The rendering body of `get_withdraw_history` (`main.py`
lines 747-772). -/
def withdrawHistoryRender (fmtTime : String → Rat → String)
    (r : Except String Json) : Except String String := do
  let withdrawals ← r
  if jTruthy withdrawals = false then
    pure "# 📤 No Withdrawal History Found\n"
  else do
    let n ← jLen withdrawals
    let items ← jItems withdrawals
    items.foldlM (fun acc w => do
        let tm ← jGet w "applyTime" >>= pyDiv1000
        let st ← jGet w "status"
        let stText := (statusLookup withdrawStatusMap st).getD ("Status " ++ jsonToPyStr st)
        let coin ← jGet w "coin"
        let amt ← jGet w "amount" >>= pyFloat
        let netw ← jGetD w "network" (.str "N/A")
        let feeJ ← jGetD w "transactionFee" (.num 0)
        let fee ← pyFloat feeJ
        pure (acc ++ "| " ++ fmtTime "%m-%d %H:%M" tm ++ " | " ++ jsonToPyStr coin
          ++ " | " ++ formatFixed amt 8 ++ " | " ++ jsonToPyStr netw ++ " | "
          ++ formatFixed fee 8 ++ " | " ++ stText ++ " |\n"))
      ("# 📤 Withdrawal History\n\n**Total Records:** " ++ toString n
        ++ "\n\n| Time | Coin | Amount | Network | Fee | Status |\n|------|------|--------|---------|-----|--------|\n")

/-- `get_withdraw_history` (`main.py` lines 723-774): credential-gated,
limit clamped above at 1000. -/
def get_withdraw_history (cfg : Config) (net : Net)
    (fmtTime : String → Rat → String) (coin : Option String)
    (status : Option Int) (limit : Int) : String × List Sent :=
  if credsMissing cfg then (notConfiguredMsg, [])
  else
    let sent : Sent := ⟨"GET", "/sapi/v1/capital/withdraw/history", capitalHistoryParams coin status limit, true⟩
    (match withdrawHistoryRender fmtTime (net sent) with
     | .ok md => md
     | .error e => "❌ Failed to fetch withdrawal history: " ++ e, [sent])

/-- A concrete HMAC stand-in for witnesses: the uninterpreted digest
function instantiated with plain concatenation. -/
def hmacTest : String → String → String := fun key msg => key ++ "|" ++ msg

/-- A concrete client configuration for witnesses. -/
def apiTest : BinanceAPI := ⟨"testkey", "testsecret", "https://api.binance.com"⟩

/-- A concrete credential configuration for witnesses. -/
def cfgTest : Config := ⟨"testkey", "testsecret"⟩

/-- An always-failing network oracle for witnesses. -/
def netFail : Net := fun _ => .error "ConnectError"

/-- A concrete time formatter for witnesses. -/
def fmtT : String → Rat → String := fun _ _ => "1970-01-01 00:00:00"

/-- A concrete oracle for the C8 witness: the spot call fails, the
futures and margin calls succeed. -/
def netC8 : Net := fun s =>
  if s = assetDistSpotSent then .error "HTTPStatusError"
  else if s = assetDistFuturesSent then
    .ok (Json.obj [("totalWalletBalance", Json.str "100"),
      ("totalUnrealizedProfit", Json.str "5"), ("positions", Json.arr [])])
  else
    .ok (Json.obj [("totalNetAssetOfBtc", Json.str "0.5"),
      ("marginLevel", Json.str "999")])

/-- A second oracle for the C8 witness: every call succeeds at the HTTP
level, but the futures payload lacks `totalUnrealizedProfit`, so the
futures section fails mid-render after its first lines were appended. -/
def netC8midRender : Net := fun s =>
  if s = assetDistSpotSent then .ok (Json.obj [("balances", Json.arr [])])
  else if s = assetDistFuturesSent then
    .ok (Json.obj [("totalWalletBalance", Json.str "100")])
  else
    .ok (Json.obj [("totalNetAssetOfBtc", Json.str "0.5"),
      ("marginLevel", Json.str "999")])

theorem lookup_dictInsert_self (ps : Params) (k : String) (v : PValue) :
    (dictInsert ps k v).lookup k = some v := by
  induction ps with
  | nil => simp [dictInsert, List.lookup]
  | cons p rest ih =>
    obtain ⟨k', v'⟩ := p
    by_cases h : k' = k
    · subst h
      simp [dictInsert, List.lookup]
    · simp only [dictInsert, if_neg h, List.lookup]
      have : (k == k') = false := by
        simp [beq_iff_eq]
        exact fun hk => h hk.symm
      rw [this]
      exact ih

theorem lookup_dictInsert_ne (ps : Params) (k k' : String) (v : PValue)
    (h : k' ≠ k) : (dictInsert ps k v).lookup k' = ps.lookup k' := by
  induction ps with
  | nil =>
    simp only [dictInsert, List.lookup]
    have : (k' == k) = false := by simpa [beq_iff_eq] using h
    rw [this]
  | cons p rest ih =>
    obtain ⟨k₀, v₀⟩ := p
    by_cases h₀ : k₀ = k
    · subst h₀
      simp only [dictInsert, if_pos rfl, List.lookup]
      have : (k' == k₀) = false := by simpa [beq_iff_eq] using h
      rw [this]
    · simp only [dictInsert, if_neg h₀, List.lookup]
      cases hbe : (k' == k₀) with
      | true => rfl
      | false => exact ih

theorem countKey_eq_zero_of_not_mem (ps : Params) (k : String)
    (h : k ∉ dictKeys ps) : countKey ps k = 0 := by
  induction ps with
  | nil => rfl
  | cons p rest ih =>
    obtain ⟨k₀, v₀⟩ := p
    simp only [dictKeys, List.map_cons, List.mem_cons] at h
    push_neg at h
    simp only [countKey, List.filter]
    have : (decide (k₀ = k)) = false := by
      simp
      exact fun hk => h.1 hk.symm
    rw [this]
    exact ih (by simpa [dictKeys] using h.2)

theorem mem_dictKeys_dictInsert (ps : Params) (k a : String) (v : PValue) :
    a ∈ dictKeys (dictInsert ps k v) ↔ a ∈ dictKeys ps ∨ a = k := by
  induction ps with
  | nil => simp [dictInsert, dictKeys]
  | cons p rest ih =>
    obtain ⟨k₀, v₀⟩ := p
    by_cases h₀ : k₀ = k
    · subst h₀
      simp [dictInsert, dictKeys]
      tauto
    · simp only [dictInsert, if_neg h₀, dictKeys, List.map_cons, List.mem_cons]
      rw [show List.map Prod.fst (dictInsert rest k v) = dictKeys (dictInsert rest k v) from rfl]
      rw [ih]
      simp only [dictKeys]
      tauto

theorem nodup_dictKeys_dictInsert (ps : Params) (k : String) (v : PValue)
    (h : (dictKeys ps).Nodup) : (dictKeys (dictInsert ps k v)).Nodup := by
  induction ps with
  | nil => simp [dictInsert, dictKeys]
  | cons p rest ih =>
    obtain ⟨k₀, v₀⟩ := p
    simp only [dictKeys, List.map_cons, List.nodup_cons] at h
    by_cases h₀ : k₀ = k
    · subst h₀
      have hstep : dictInsert ((k₀, v₀) :: rest) k₀ v = (k₀, v) :: rest := by
        simp [dictInsert]
      rw [hstep]
      show (k₀ :: List.map Prod.fst rest).Nodup
      exact List.nodup_cons.mpr ⟨h.1, h.2⟩
    · simp only [dictInsert, if_neg h₀, dictKeys, List.map_cons, List.nodup_cons]
      refine ⟨?_, ih h.2⟩
      intro hmem
      rw [show List.map Prod.fst (dictInsert rest k v) = dictKeys (dictInsert rest k v) from rfl,
        mem_dictKeys_dictInsert] at hmem
      rcases hmem with hmem | hmem
      · exact h.1 (by simpa [dictKeys] using hmem)
      · exact h₀ hmem

theorem countKey_dictInsert_self (ps : Params) (k : String) (v : PValue)
    (h : (dictKeys ps).Nodup) : countKey (dictInsert ps k v) k = 1 := by
  induction ps with
  | nil => simp [dictInsert, countKey]
  | cons p rest ih =>
    obtain ⟨k₀, v₀⟩ := p
    simp only [dictKeys, List.map_cons, List.nodup_cons] at h
    by_cases h₀ : k₀ = k
    · subst h₀
      have h0 : countKey rest k₀ = 0 :=
        countKey_eq_zero_of_not_mem rest k₀ (by simpa [dictKeys] using h.1)
      simp only [countKey] at h0 ⊢
      simp [dictInsert, List.filter_cons, h0]
    · have ih2 := ih h.2
      simp only [countKey] at ih2 ⊢
      simp [dictInsert, h₀, List.filter_cons, ih2]

theorem countKey_dictInsert_ne (ps : Params) (k k' : String) (v : PValue)
    (h : k' ≠ k) : countKey (dictInsert ps k v) k' = countKey ps k' := by
  induction ps with
  | nil =>
    have h2 : ¬ (k = k') := fun e => h (Eq.symm e)
    simp [dictInsert, countKey, List.filter_cons, h2]
  | cons p rest ih =>
    obtain ⟨k₀, v₀⟩ := p
    have ih2 := ih
    simp only [countKey] at ih2 ⊢
    by_cases h₀ : k₀ = k
    · subst h₀
      have h2 : ¬ (k₀ = k') := fun e => h (Eq.symm e)
      simp [dictInsert, List.filter_cons, h2]
    · by_cases h1 : k₀ = k'
      · subst h1
        simp [dictInsert, h₀, List.filter_cons, ih2]
      · simp [dictInsert, h₀, List.filter_cons, h1, ih2]

theorem dictInsert_of_not_mem (ps : Params) (k : String) (v : PValue)
    (h : k ∉ dictKeys ps) : dictInsert ps k v = ps ++ [(k, v)] := by
  induction ps with
  | nil => rfl
  | cons p rest ih =>
    obtain ⟨k₀, v₀⟩ := p
    simp only [dictKeys, List.map_cons, List.mem_cons] at h
    push_neg at h
    have hne : ¬ (k₀ = k) := fun hk => h.1 (Eq.symm hk)
    simp only [dictInsert, if_neg hne, List.cons_append, List.cons.injEq, true_and]
    exact ih (by simpa [dictKeys] using h.2)

/-- The signing block unfolded: timestamp inserted first, then the
signature over the urlencoding of the timestamped dict. -/
theorem signParams_eq (hmacHex : String → String → String) (api : BinanceAPI)
    (ps : Params) (nowMs : Int) :
    signParams hmacHex api ps nowMs
      = dictInsert (dictInsert ps "timestamp" (.int nowMs)) "signature"
          (.str (hmacHex api.api_secret
            (urlencode (dictInsert ps "timestamp" (.int nowMs))))) := rfl

/-- Claim C1: for every parameter mapping (a dict, so its keys are
distinct) and secret, a signed GET call to `BinanceAPI._request` produces
exactly one `timestamp` entry (the millisecond clock reading) and exactly
one `signature` entry, leaves the value of every other key unchanged, and
the signature equals the HMAC-SHA256 hex digest, keyed by the configured
secret, of the URL-encoded query string of the parameters in insertion
order including the appended timestamp and excluding the appended
signature.  When neither key was present before, both entries are
literally appended at the end. -/
theorem C1_signing_appends_timestamp_and_signature
    (hmacHex : String → String → String) (api : BinanceAPI)
    (endpoint : String) (ps : Params) (nowMs : Int)
    (h : (dictKeys ps).Nodup) :
    BinanceAPI._request hmacHex api "GET" endpoint ps true nowMs
      = .ok ⟨.GET, api.base_url ++ endpoint, signParams hmacHex api ps nowMs,
          if api.api_key ≠ "" then [("X-MBX-APIKEY", api.api_key)] else []⟩
    ∧ countKey (signParams hmacHex api ps nowMs) "timestamp" = 1
    ∧ countKey (signParams hmacHex api ps nowMs) "signature" = 1
    ∧ (∀ k, k ≠ "timestamp" → k ≠ "signature" →
        (signParams hmacHex api ps nowMs).lookup k = ps.lookup k)
    ∧ (signParams hmacHex api ps nowMs).lookup "timestamp" = some (.int nowMs)
    ∧ (signParams hmacHex api ps nowMs).lookup "signature"
        = some (.str (hmacHex api.api_secret
            (urlencode (dictInsert ps "timestamp" (.int nowMs)))))
    ∧ ("timestamp" ∉ dictKeys ps → "signature" ∉ dictKeys ps →
        signParams hmacHex api ps nowMs
          = ps ++ [("timestamp", .int nowMs),
              ("signature", .str (hmacHex api.api_secret
                (urlencode (ps ++ [("timestamp", .int nowMs)]))))]) := by
  refine ⟨rfl, ?_, ?_, ?_, ?_, ?_, ?_⟩
  · rw [signParams_eq, countKey_dictInsert_ne _ _ _ _ (by decide)]
    exact countKey_dictInsert_self _ _ _ h
  · rw [signParams_eq]
    exact countKey_dictInsert_self _ _ _ (nodup_dictKeys_dictInsert _ _ _ h)
  · intro k hk1 hk2
    rw [signParams_eq, lookup_dictInsert_ne _ _ _ _ hk2,
      lookup_dictInsert_ne _ _ _ _ hk1]
  · rw [signParams_eq, lookup_dictInsert_ne _ _ _ _ (by decide)]
    exact lookup_dictInsert_self _ _ _
  · rw [signParams_eq]
    exact lookup_dictInsert_self _ _ _
  · intro ht hs
    have h1 : dictInsert ps "timestamp" (PValue.int nowMs)
        = ps ++ [("timestamp", PValue.int nowMs)] := dictInsert_of_not_mem _ _ _ ht
    rw [signParams_eq, h1]
    have hs2 : "signature" ∉ dictKeys (ps ++ [("timestamp", PValue.int nowMs)]) := by
      simp only [dictKeys, List.map_append, List.mem_append]
      rintro (hmem | hmem)
      · exact hs hmem
      · simp at hmem
    rw [dictInsert_of_not_mem _ _ _ hs2]
    simp



/-- Witness for C1 at a one-entry parameter dict. -/
theorem C1_witness :
    (dictKeys [("symbol", PValue.str "BTCUSDT")]).Nodup
    ∧ countKey (signParams hmacTest apiTest [("symbol", PValue.str "BTCUSDT")]
        1700000000000) "timestamp" = 1
    ∧ (signParams hmacTest apiTest [("symbol", PValue.str "BTCUSDT")]
        1700000000000).lookup "signature"
        = some (.str (hmacTest apiTest.api_secret
            (urlencode (dictInsert [("symbol", PValue.str "BTCUSDT")]
              "timestamp" (.int 1700000000000))))) := by
  have h := C1_signing_appends_timestamp_and_signature hmacTest apiTest
    "/api/v3/account" [("symbol", PValue.str "BTCUSDT")] 1700000000000 (by decide)
  exact ⟨by decide, h.2.1, h.2.2.2.2.2.1⟩

/-- Claim C4: a method string whose upper-casing is neither GET nor POST
makes `BinanceAPI._request` fail with the usage-error `ValueError` and no
HTTP request is dispatched (no `HttpCall` is produced); upper-casing to
GET or POST dispatches the corresponding verb. -/
theorem C4_unsupported_method_fails
    (hmacHex : String → String → String) (api : BinanceAPI)
    (method endpoint : String) (ps : Params) (signed : Bool) (nowMs : Int) :
    (pyUpper method ≠ "GET" → pyUpper method ≠ "POST" →
      BinanceAPI._request hmacHex api method endpoint ps signed nowMs
        = .error ("Unsupported HTTP method: " ++ method))
    ∧ (pyUpper method = "GET" →
        BinanceAPI._request hmacHex api method endpoint ps signed nowMs
          = .ok ⟨.GET, api.base_url ++ endpoint,
              if signed then signParams hmacHex api ps nowMs else ps,
              if api.api_key ≠ "" then [("X-MBX-APIKEY", api.api_key)] else []⟩)
    ∧ (pyUpper method = "POST" →
        BinanceAPI._request hmacHex api method endpoint ps signed nowMs
          = .ok ⟨.POST, api.base_url ++ endpoint,
              if signed then signParams hmacHex api ps nowMs else ps,
              if api.api_key ≠ "" then [("X-MBX-APIKEY", api.api_key)] else []⟩) := by
  refine ⟨?_, ?_, ?_⟩
  · intro h1 h2
    simp [BinanceAPI._request, h1, h2]
  · intro h1
    simp [BinanceAPI._request, h1]
  · intro h1
    have h2 : pyUpper method ≠ "GET" := by
      rw [h1]; decide
    simp [BinanceAPI._request, h1, h2]

/-- Witness for C4: DELETE is rejected before any dispatch; get and Post
dispatch GET and POST. -/
theorem C4_witness :
    (pyUpper "DELETE" ≠ "GET" ∧ pyUpper "DELETE" ≠ "POST"
      ∧ BinanceAPI._request hmacTest apiTest "DELETE" "/api/v3/order" [] false 0
          = .error "Unsupported HTTP method: DELETE")
    ∧ (pyUpper "get" = "GET"
      ∧ BinanceAPI._request hmacTest apiTest "get" "/api/v3/time" [] false 0
          = .ok ⟨.GET, apiTest.base_url ++ "/api/v3/time", [],
              [("X-MBX-APIKEY", apiTest.api_key)]⟩)
    ∧ (pyUpper "Post" = "POST"
      ∧ BinanceAPI._request hmacTest apiTest "Post" "/api/v3/order" [] false 0
          = .ok ⟨.POST, apiTest.base_url ++ "/api/v3/order", [],
              [("X-MBX-APIKEY", apiTest.api_key)]⟩) := by
  refine ⟨⟨by decide, by decide, ?_⟩, ⟨by decide, ?_⟩, ⟨by decide, ?_⟩⟩
  · exact (C4_unsupported_method_fails hmacTest apiTest "DELETE" "/api/v3/order"
      [] false 0).1 (by decide) (by decide)
  · exact (C4_unsupported_method_fails hmacTest apiTest "get" "/api/v3/time"
      [] false 0).2.1 (by decide)
  · exact (C4_unsupported_method_fails hmacTest apiTest "Post" "/api/v3/order"
      [] false 0).2.2 (by decide)

/-- Claim C9: a signed call writes through the caller-supplied dict
(modelled as the pre-state to post-state map `signParams`): the post-state
always carries `timestamp ↦ nowMs` and `signature ↦ digest`, so a
caller-supplied `timestamp` or `signature` value is overwritten, not
preserved. -/
theorem C9_signing_overwrites_caller_entries
    (hmacHex : String → String → String) (api : BinanceAPI)
    (ps : Params) (nowMs : Int) :
    (signParams hmacHex api ps nowMs).lookup "timestamp" = some (.int nowMs)
    ∧ (signParams hmacHex api ps nowMs).lookup "signature"
        = some (.str (hmacHex api.api_secret
            (urlencode (dictInsert ps "timestamp" (.int nowMs)))))
    ∧ (∀ v : PValue, ("timestamp", v) ∈ ps →
        (signParams hmacHex api ps nowMs).lookup "timestamp" = some (.int nowMs))
    ∧ (∀ v : PValue, ("signature", v) ∈ ps →
        (signParams hmacHex api ps nowMs).lookup "signature"
          = some (.str (hmacHex api.api_secret
              (urlencode (dictInsert ps "timestamp" (.int nowMs)))))) := by
  have ht : (signParams hmacHex api ps nowMs).lookup "timestamp"
      = some (PValue.int nowMs) := by
    rw [signParams_eq, lookup_dictInsert_ne _ _ _ _ (by decide)]
    exact lookup_dictInsert_self _ _ _
  have hs : (signParams hmacHex api ps nowMs).lookup "signature"
      = some (PValue.str (hmacHex api.api_secret
          (urlencode (dictInsert ps "timestamp" (PValue.int nowMs))))) := by
    rw [signParams_eq]
    exact lookup_dictInsert_self _ _ _
  exact ⟨ht, hs, fun _ _ => ht, fun _ _ => hs⟩

/-- Witness for C9: a dict that already carries stale timestamp and
signature entries has both overwritten. -/
theorem C9_witness :
    (("timestamp", PValue.int 1)
        ∈ ([("timestamp", PValue.int 1), ("signature", PValue.str "stale")] : Params))
    ∧ (signParams hmacTest apiTest
        [("timestamp", PValue.int 1), ("signature", PValue.str "stale")] 42).lookup "timestamp"
        = some (PValue.int 42)
    ∧ (signParams hmacTest apiTest
        [("timestamp", PValue.int 1), ("signature", PValue.str "stale")] 42).lookup "signature"
        = some (.str (hmacTest apiTest.api_secret
            (urlencode (dictInsert
              [("timestamp", PValue.int 1), ("signature", PValue.str "stale")]
              "timestamp" (.int 42))))) := by
  have h := C9_signing_overwrites_caller_entries hmacTest apiTest
    [("timestamp", PValue.int 1), ("signature", PValue.str "stale")] 42
  exact ⟨by decide, h.2.2.1 (PValue.int 1) (by decide),
    h.2.2.2 (PValue.str "stale") (by decide)⟩




/-- Claim C2: every tool function totalises into a Markdown string; when
the computation inside its try block (request or rendering) raises, the
tool returns the single error line built from its fixed prefix and the
exception text, and that line begins with the error marker `❌`.  One
conjunct per tool of the surface; `get_asset_distribution` has no
top-level error path (each sub-call failure is rendered inline), so its
conjunct states that its output still begins with its Markdown heading. -/
theorem C2_no_exception_escapes_tools
    (cfg : Config) (net : Net) (fmtTime : String → Rat → String)
    (symbol coin2 : String) (osym ity network coin : Option String)
    (status : Option Int) (limit count page : Int) (e : String) :
    (announcementsRender fmtTime (net (announcementsSent count page)) = .error e →
      (fetch_latest_announcements cfg net fmtTime count page).1
          = "❌ Failed to fetch announcements: " ++ e
        ∧ (fetch_latest_announcements cfg net fmtTime count page).1.data.head? = some '❌')
    ∧ (tickerRender (net ⟨"GET", "/api/v3/ticker/price", optSymbolParams "symbol" osym, false⟩) = .error e →
      (get_ticker_price cfg net osym).1 = "❌ Failed to fetch ticker price: " ++ e
        ∧ (get_ticker_price cfg net osym).1.data.head? = some '❌')
    ∧ (ticker24Render symbol (net ⟨"GET", "/api/v3/ticker/24hr", [("symbol", .str (pyUpper symbol))], false⟩) = .error e →
      (get_24hr_ticker cfg net symbol).1 = "❌ Failed to fetch 24hr ticker: " ++ e
        ∧ (get_24hr_ticker cfg net symbol).1.data.head? = some '❌')
    ∧ (credsMissing cfg = false →
      accountInfoRender (net ⟨"GET", "/api/v3/account", [], true⟩) = .error e →
      (get_account_info cfg net).1 = "❌ Failed to fetch account info: " ++ e
        ∧ (get_account_info cfg net).1.data.head? = some '❌')
    ∧ (credsMissing cfg = false →
      spotOpenOrdersRender fmtTime osym (net ⟨"GET", "/api/v3/openOrders", optSymbolParams "symbol" osym, true⟩) = .error e →
      (get_spot_open_orders cfg net fmtTime osym).1 = "❌ Failed to fetch open orders: " ++ e
        ∧ (get_spot_open_orders cfg net fmtTime osym).1.data.head? = some '❌')
    ∧ (credsMissing cfg = false →
      spotTradeHistoryRender fmtTime symbol (net ⟨"GET", "/api/v3/myTrades", spotTradeHistoryParams symbol limit, true⟩) = .error e →
      (get_spot_trade_history cfg net fmtTime symbol limit).1 = "❌ Failed to fetch trade history: " ++ e
        ∧ (get_spot_trade_history cfg net fmtTime symbol limit).1.data.head? = some '❌')
    ∧ (credsMissing cfg = false →
      futuresAccountRender (net ⟨"GET", "/fapi/v2/account", [], true⟩) = .error e →
      (get_futures_account_balance cfg net).1 = "❌ Failed to fetch futures account: " ++ e
        ∧ (get_futures_account_balance cfg net).1.data.head? = some '❌')
    ∧ (credsMissing cfg = false →
      futuresOpenOrdersRender fmtTime osym (net ⟨"GET", "/fapi/v1/openOrders", optSymbolParams "symbol" osym, true⟩) = .error e →
      (get_futures_open_orders cfg net fmtTime osym).1 = "❌ Failed to fetch futures open orders: " ++ e
        ∧ (get_futures_open_orders cfg net fmtTime osym).1.data.head? = some '❌')
    ∧ (credsMissing cfg = false →
      futuresIncomeRender fmtTime (net ⟨"GET", "/fapi/v1/income", futuresIncomeParams osym ity limit, true⟩) = .error e →
      (get_futures_income_history cfg net fmtTime osym ity limit).1 = "❌ Failed to fetch income history: " ++ e
        ∧ (get_futures_income_history cfg net fmtTime osym ity limit).1.data.head? = some '❌')
    ∧ (credsMissing cfg = false →
      marginAccountRender (net ⟨"GET", "/sapi/v1/margin/account", [], true⟩) = .error e →
      (get_margin_account cfg net).1 = "❌ Failed to fetch margin account: " ++ e
        ∧ (get_margin_account cfg net).1.data.head? = some '❌')
    ∧ (credsMissing cfg = false →
      isolatedMarginRender (net ⟨"GET", "/sapi/v1/margin/isolated/account", optSymbolParams "symbols" osym, true⟩) = .error e →
      (get_isolated_margin_account cfg net osym).1 = "❌ Failed to fetch isolated margin account: " ++ e
        ∧ (get_isolated_margin_account cfg net osym).1.data.head? = some '❌')
    ∧ (credsMissing cfg = false →
      (get_asset_distribution cfg net).1.data.head? = some '#')
    ∧ (credsMissing cfg = false →
      depositAddressRender coin2 (net ⟨"GET", "/sapi/v1/capital/deposit/address", ("coin", .str (pyUpper coin2)) :: optSymbolParams "network" network, true⟩) = .error e →
      (get_deposit_address cfg net coin2 network).1 = "❌ Failed to fetch deposit address: " ++ e
        ∧ (get_deposit_address cfg net coin2 network).1.data.head? = some '❌')
    ∧ (credsMissing cfg = false →
      depositHistoryRender fmtTime (net ⟨"GET", "/sapi/v1/capital/deposit/hisrec", capitalHistoryParams coin status limit, true⟩) = .error e →
      (get_deposit_history cfg net fmtTime coin status limit).1 = "❌ Failed to fetch deposit history: " ++ e
        ∧ (get_deposit_history cfg net fmtTime coin status limit).1.data.head? = some '❌')
    ∧ (credsMissing cfg = false →
      withdrawHistoryRender fmtTime (net ⟨"GET", "/sapi/v1/capital/withdraw/history", capitalHistoryParams coin status limit, true⟩) = .error e →
      (get_withdraw_history cfg net fmtTime coin status limit).1 = "❌ Failed to fetch withdrawal history: " ++ e
        ∧ (get_withdraw_history cfg net fmtTime coin status limit).1.data.head? = some '❌') := by
  obtain ⟨el⟩ := e
  refine ⟨?_, ?_, ?_, ?_, ?_, ?_, ?_, ?_, ?_, ?_, ?_, ?_, ?_, ?_, ?_⟩
  · intro h
    have heq : (fetch_latest_announcements cfg net fmtTime count page).1
        = "❌ Failed to fetch announcements: " ++ ⟨el⟩ := by
      simp [fetch_latest_announcements, h]
    exact ⟨heq, by rw [heq]; rfl⟩
  · intro h
    have heq : (get_ticker_price cfg net osym).1
        = "❌ Failed to fetch ticker price: " ++ ⟨el⟩ := by
      simp [get_ticker_price, h]
    exact ⟨heq, by rw [heq]; rfl⟩
  · intro h
    have heq : (get_24hr_ticker cfg net symbol).1
        = "❌ Failed to fetch 24hr ticker: " ++ ⟨el⟩ := by
      simp [get_24hr_ticker, h]
    exact ⟨heq, by rw [heq]; rfl⟩
  · intro hc h
    have heq : (get_account_info cfg net).1
        = "❌ Failed to fetch account info: " ++ ⟨el⟩ := by
      simp [get_account_info, hc, h]
    exact ⟨heq, by rw [heq]; rfl⟩
  · intro hc h
    have heq : (get_spot_open_orders cfg net fmtTime osym).1
        = "❌ Failed to fetch open orders: " ++ ⟨el⟩ := by
      simp [get_spot_open_orders, hc, h]
    exact ⟨heq, by rw [heq]; rfl⟩
  · intro hc h
    have heq : (get_spot_trade_history cfg net fmtTime symbol limit).1
        = "❌ Failed to fetch trade history: " ++ ⟨el⟩ := by
      simp [get_spot_trade_history, hc, h]
    exact ⟨heq, by rw [heq]; rfl⟩
  · intro hc h
    have heq : (get_futures_account_balance cfg net).1
        = "❌ Failed to fetch futures account: " ++ ⟨el⟩ := by
      simp [get_futures_account_balance, hc, h]
    exact ⟨heq, by rw [heq]; rfl⟩
  · intro hc h
    have heq : (get_futures_open_orders cfg net fmtTime osym).1
        = "❌ Failed to fetch futures open orders: " ++ ⟨el⟩ := by
      simp [get_futures_open_orders, hc, h]
    exact ⟨heq, by rw [heq]; rfl⟩
  · intro hc h
    have heq : (get_futures_income_history cfg net fmtTime osym ity limit).1
        = "❌ Failed to fetch income history: " ++ ⟨el⟩ := by
      simp [get_futures_income_history, hc, h]
    exact ⟨heq, by rw [heq]; rfl⟩
  · intro hc h
    have heq : (get_margin_account cfg net).1
        = "❌ Failed to fetch margin account: " ++ ⟨el⟩ := by
      simp [get_margin_account, hc, h]
    exact ⟨heq, by rw [heq]; rfl⟩
  · intro hc h
    have heq : (get_isolated_margin_account cfg net osym).1
        = "❌ Failed to fetch isolated margin account: " ++ ⟨el⟩ := by
      simp [get_isolated_margin_account, hc, h]
    exact ⟨heq, by rw [heq]; rfl⟩
  · intro hc
    have heq : (get_asset_distribution cfg net).1
        = "# 🎯 Portfolio Distribution Snapshot\n\n"
          ++ assetDistSpotSection (net assetDistSpotSent)
          ++ assetDistFuturesSection (net assetDistFuturesSent)
          ++ assetDistMarginSection (net assetDistMarginSent) := by
      simp [get_asset_distribution, hc]
    rw [heq]
    obtain ⟨l1⟩ := assetDistSpotSection (net assetDistSpotSent)
    obtain ⟨l2⟩ := assetDistFuturesSection (net assetDistFuturesSent)
    obtain ⟨l3⟩ := assetDistMarginSection (net assetDistMarginSent)
    rfl
  · intro hc h
    have heq : (get_deposit_address cfg net coin2 network).1
        = "❌ Failed to fetch deposit address: " ++ ⟨el⟩ := by
      simp [get_deposit_address, hc, h]
    exact ⟨heq, by rw [heq]; rfl⟩
  · intro hc h
    have heq : (get_deposit_history cfg net fmtTime coin status limit).1
        = "❌ Failed to fetch deposit history: " ++ ⟨el⟩ := by
      simp [get_deposit_history, hc, h]
    exact ⟨heq, by rw [heq]; rfl⟩
  · intro hc h
    have heq : (get_withdraw_history cfg net fmtTime coin status limit).1
        = "❌ Failed to fetch withdrawal history: " ++ ⟨el⟩ := by
      simp [get_withdraw_history, hc, h]
    exact ⟨heq, by rw [heq]; rfl⟩

/-- Witness for C2: with an always-failing network every tool returns its
error line (or, for the distribution snapshot, its heading). -/
theorem C2_witness :
    (fetch_latest_announcements cfgTest netFail fmtT 20 1).1
        = "❌ Failed to fetch announcements: ConnectError"
    ∧ (get_ticker_price cfgTest netFail none).1
        = "❌ Failed to fetch ticker price: ConnectError"
    ∧ (get_24hr_ticker cfgTest netFail "BTCUSDT").1
        = "❌ Failed to fetch 24hr ticker: ConnectError"
    ∧ (get_account_info cfgTest netFail).1
        = "❌ Failed to fetch account info: ConnectError"
    ∧ (get_spot_open_orders cfgTest netFail fmtT none).1
        = "❌ Failed to fetch open orders: ConnectError"
    ∧ (get_spot_trade_history cfgTest netFail fmtT "BTCUSDT" 10).1
        = "❌ Failed to fetch trade history: ConnectError"
    ∧ (get_futures_account_balance cfgTest netFail).1
        = "❌ Failed to fetch futures account: ConnectError"
    ∧ (get_futures_open_orders cfgTest netFail fmtT none).1
        = "❌ Failed to fetch futures open orders: ConnectError"
    ∧ (get_futures_income_history cfgTest netFail fmtT none none 10).1
        = "❌ Failed to fetch income history: ConnectError"
    ∧ (get_margin_account cfgTest netFail).1
        = "❌ Failed to fetch margin account: ConnectError"
    ∧ (get_isolated_margin_account cfgTest netFail none).1
        = "❌ Failed to fetch isolated margin account: ConnectError"
    ∧ (get_asset_distribution cfgTest netFail).1.data.head? = some '#'
    ∧ (get_deposit_address cfgTest netFail "BTC" none).1
        = "❌ Failed to fetch deposit address: ConnectError"
    ∧ (get_deposit_history cfgTest netFail fmtT none none 10).1
        = "❌ Failed to fetch deposit history: ConnectError"
    ∧ (get_withdraw_history cfgTest netFail fmtT none none 10).1
        = "❌ Failed to fetch withdrawal history: ConnectError" := by
  have h := C2_no_exception_escapes_tools cfgTest netFail fmtT "BTCUSDT" "BTC"
    none none none none none 10 20 1 "ConnectError"
  exact ⟨(h.1 rfl).1, (h.2.1 rfl).1, (h.2.2.1 rfl).1, (h.2.2.2.1 rfl rfl).1,
    (h.2.2.2.2.1 rfl rfl).1, (h.2.2.2.2.2.1 rfl rfl).1,
    (h.2.2.2.2.2.2.1 rfl rfl).1, (h.2.2.2.2.2.2.2.1 rfl rfl).1,
    (h.2.2.2.2.2.2.2.2.1 rfl rfl).1, (h.2.2.2.2.2.2.2.2.2.1 rfl rfl).1,
    (h.2.2.2.2.2.2.2.2.2.2.1 rfl rfl).1, h.2.2.2.2.2.2.2.2.2.2.2.1 rfl,
    (h.2.2.2.2.2.2.2.2.2.2.2.2.1 rfl rfl).1,
    (h.2.2.2.2.2.2.2.2.2.2.2.2.2.1 rfl rfl).1,
    (h.2.2.2.2.2.2.2.2.2.2.2.2.2.2 rfl rfl).1⟩

/-- Claim C3 as amended: every credential-gated tool (the twelve tools
that read the credentials) returns the fixed not-configured message and
sends no request when the API key or secret is empty.  The public tools
perform no such check (see the counterexample). -/
theorem C3_gated_tools_short_circuit
    (cfg : Config) (net : Net) (fmtTime : String → Rat → String)
    (symbol coin2 : String) (osym ity network coin : Option String)
    (status : Option Int) (limit : Int)
    (h : credsMissing cfg = true) :
    get_account_info cfg net = (notConfiguredMsg, [])
    ∧ get_spot_open_orders cfg net fmtTime osym = (notConfiguredMsg, [])
    ∧ get_spot_trade_history cfg net fmtTime symbol limit = (notConfiguredMsg, [])
    ∧ get_futures_account_balance cfg net = (notConfiguredMsg, [])
    ∧ get_futures_open_orders cfg net fmtTime osym = (notConfiguredMsg, [])
    ∧ get_futures_income_history cfg net fmtTime osym ity limit = (notConfiguredMsg, [])
    ∧ get_margin_account cfg net = (notConfiguredMsg, [])
    ∧ get_isolated_margin_account cfg net osym = (notConfiguredMsg, [])
    ∧ get_asset_distribution cfg net = (notConfiguredMsg, [])
    ∧ get_deposit_address cfg net coin2 network = (notConfiguredMsg, [])
    ∧ get_deposit_history cfg net fmtTime coin status limit = (notConfiguredMsg, [])
    ∧ get_withdraw_history cfg net fmtTime coin status limit = (notConfiguredMsg, []) := by
  refine ⟨?_, ?_, ?_, ?_, ?_, ?_, ?_, ?_, ?_, ?_, ?_, ?_⟩ <;>
    simp [get_account_info, get_spot_open_orders, get_spot_trade_history,
      get_futures_account_balance, get_futures_open_orders,
      get_futures_income_history, get_margin_account,
      get_isolated_margin_account, get_asset_distribution,
      get_deposit_address, get_deposit_history, get_withdraw_history, h]

/-- Witness for the amended C3 at empty credentials. -/
theorem C3_witness :
    credsMissing ⟨"", ""⟩ = true
    ∧ get_account_info ⟨"", ""⟩ netFail = (notConfiguredMsg, [])
    ∧ get_asset_distribution ⟨"", ""⟩ netFail = (notConfiguredMsg, []) := by
  have h := C3_gated_tools_short_circuit ⟨"", ""⟩ netFail fmtT "BTCUSDT" "BTC"
    none none none none none 10 (by decide)
  exact ⟨by decide, h.1, h.2.2.2.2.2.2.2.2.1⟩

/-- Counterexample to C3 as stated: `get_ticker_price` is a formatting
(tool) function, yet with both credentials empty it does not return the
not-configured message and it does send its network request (the source
has no credential check there, `main.py` lines 120-135). -/
theorem C3_counterexample :
    (get_ticker_price ⟨"", ""⟩
        (fun _ => .ok (Json.obj [("symbol", Json.str "BTCUSDT"), ("price", Json.str "0.1")]))
        (some "BTCUSDT")).2
      = [⟨"GET", "/api/v3/ticker/price", [("symbol", PValue.str "BTCUSDT")], false⟩]
    ∧ (get_ticker_price ⟨"", ""⟩
        (fun _ => .ok (Json.obj [("symbol", Json.str "BTCUSDT"), ("price", Json.str "0.1")]))
        (some "BTCUSDT")).1 ≠ notConfiguredMsg := by
  constructor
  · decide
  · decide

/-- Claim C5: `fetch_latest_announcements` sends `rows` at most 20 (a
count above 20 is replaced by 20) and `page` at least 1 (a page below 1
is replaced by 1), for every integer inputs. -/
theorem C5_announcements_clamps (cfg : Config) (net : Net)
    (fmtTime : String → Rat → String) (count page : Int) :
    (fetch_latest_announcements cfg net fmtTime count page).2
      = [⟨"GET", ANNOUNCEMENT_URL,
          [("page", .int (if page < 1 then 1 else page)),
           ("rows", .int (if count > 20 then 20 else count))], false⟩]
    ∧ (if count > 20 then 20 else count) ≤ 20
    ∧ 1 ≤ (if page < 1 then 1 else page) := by
  refine ⟨rfl, ?_, ?_⟩ <;> split <;> omega

/-- Claim C6: `get_spot_trade_history`, `get_deposit_history`,
`get_withdraw_history` and `get_futures_income_history` each send a
`limit` request parameter equal to `min(limit, 1000)`, hence never above
1000. -/
theorem C6_history_limit_clamp (cfg : Config) (net : Net)
    (fmtTime : String → Rat → String) (symbol : String)
    (osym ity coin : Option String) (status : Option Int) (limit : Int)
    (h : credsMissing cfg = false) :
    (get_spot_trade_history cfg net fmtTime symbol limit).2
        = [⟨"GET", "/api/v3/myTrades", spotTradeHistoryParams symbol limit, true⟩]
    ∧ (get_deposit_history cfg net fmtTime coin status limit).2
        = [⟨"GET", "/sapi/v1/capital/deposit/hisrec", capitalHistoryParams coin status limit, true⟩]
    ∧ (get_withdraw_history cfg net fmtTime coin status limit).2
        = [⟨"GET", "/sapi/v1/capital/withdraw/history", capitalHistoryParams coin status limit, true⟩]
    ∧ (get_futures_income_history cfg net fmtTime osym ity limit).2
        = [⟨"GET", "/fapi/v1/income", futuresIncomeParams osym ity limit, true⟩]
    ∧ (spotTradeHistoryParams symbol limit).lookup "limit" = some (.int (min limit 1000))
    ∧ (capitalHistoryParams coin status limit).lookup "limit" = some (.int (min limit 1000))
    ∧ (futuresIncomeParams osym ity limit).lookup "limit" = some (.int (min limit 1000))
    ∧ min limit 1000 ≤ 1000 := by
  refine ⟨?_, ?_, ?_, ?_, ?_, ?_, ?_, min_le_right _ _⟩
  · simp [get_spot_trade_history, h]
  · simp [get_deposit_history, h]
  · simp [get_withdraw_history, h]
  · simp [get_futures_income_history, h]
  · rfl
  · rfl
  · rfl

/-- Witness for C6 at limit 5000, clamped to 1000. -/
theorem C6_witness :
    credsMissing cfgTest = false
    ∧ (get_spot_trade_history cfgTest netFail fmtT "BTCUSDT" 5000).2
        = [⟨"GET", "/api/v3/myTrades",
            [("symbol", PValue.str "BTCUSDT"), ("limit", PValue.int 1000)], true⟩]
    ∧ (capitalHistoryParams none none 5000).lookup "limit" = some (PValue.int 1000) := by
  have h := C6_history_limit_clamp cfgTest netFail fmtT "BTCUSDT" none none none
    none 5000 (by decide)
  exact ⟨by decide, h.1, h.2.2.2.2.2.1⟩

/-- Claim C10: the clamps are one-sided upper bounds only: a limit at or
below 1000 (zero and negative values included) is forwarded unchanged by
the history tools, and a count at or below 20 is forwarded unchanged as
`rows` by `fetch_latest_announcements`. -/
theorem C10_clamps_one_sided (symbol : String) (osym ity coin : Option String)
    (status : Option Int) (count page limit : Int)
    (hc : count ≤ 20) (hl : limit ≤ 1000) :
    (announcementsSent count page).params.lookup "rows" = some (.int count)
    ∧ (spotTradeHistoryParams symbol limit).lookup "limit" = some (.int limit)
    ∧ (capitalHistoryParams coin status limit).lookup "limit" = some (.int limit)
    ∧ (futuresIncomeParams osym ity limit).lookup "limit" = some (.int limit) := by
  have h20 : ¬ (count > 20) := by omega
  have hmin : min limit 1000 = limit := min_eq_left hl
  refine ⟨?_, ?_, ?_, ?_⟩
  · simp [announcementsSent, h20, List.lookup]
  · simp [spotTradeHistoryParams, hmin, List.lookup]
  · simp [capitalHistoryParams, hmin, List.lookup]
  · simp [futuresIncomeParams, hmin, List.lookup]

/-- Witness for C10 at negative inputs, forwarded unchanged. -/
theorem C10_witness :
    (-5 : Int) ≤ 20 ∧ (-3 : Int) ≤ 1000
    ∧ (announcementsSent (-5) 0).params.lookup "rows" = some (PValue.int (-5))
    ∧ (spotTradeHistoryParams "BTCUSDT" (-3)).lookup "limit" = some (PValue.int (-3))
    ∧ (capitalHistoryParams none none (-3)).lookup "limit" = some (PValue.int (-3)) := by
  have h := C10_clamps_one_sided "BTCUSDT" none none none none (-5) 0 (-3)
    (by decide) (by decide)
  exact ⟨by decide, by decide, h.1, h.2.1, h.2.2.1⟩

/-- Claim C7: numeric rendering is fixed-precision: a price field whose
numeric value is 0.1 (whether the JSON carries the string "0.1" or the
number itself) renders as "0.10000000" under the 8-decimal price format,
and a quote-volume of 1234.5 renders as "$1234.50" under the 2-decimal
currency format. -/
theorem C7_fixed_precision_rendering :
    (get_ticker_price cfgTest
        (fun _ => .ok (Json.obj [("symbol", Json.str "BTCUSDT"), ("price", Json.str "0.1")]))
        (some "BTCUSDT")).1
      = "# 💰 BTCUSDT Price\n\n**Current Price:** $0.10000000\n"
    ∧ (get_ticker_price cfgTest
        (fun _ => .ok (Json.obj [("symbol", Json.str "ETHUSDT"), ("price", Json.num (mkRat 1 10))]))
        (some "ETHUSDT")).1
      = "# 💰 ETHUSDT Price\n\n**Current Price:** $0.10000000\n"
    ∧ (get_24hr_ticker cfgTest
        (fun _ => .ok (Json.obj
          [("symbol", Json.str "BTCUSDT"), ("priceChange", Json.str "1.5"),
           ("priceChangePercent", Json.str "2.5"), ("highPrice", Json.str "2.0"),
           ("lowPrice", Json.str "0.5"), ("lastPrice", Json.str "1.0"),
           ("volume", Json.str "100"), ("quoteVolume", Json.str "1234.5"),
           ("count", Json.num 42)])) "BTCUSDT").1
      = "# 📊 24hr Statistics for BTCUSDT\n\n**Price Change:** $1.50000000 (2.50%)\n**High Price:** $2.00000000\n**Low Price:** $0.50000000\n**Current Price:** $1.00000000\n**Volume:** 100.00 BTC\n**Quote Volume:** $1234.50\n**Number of Trades:** 42\n" := by
  refine ⟨?_, ?_, ?_⟩ <;> (set_option maxRecDepth 4096 in decide)

/-- Claim C8: `get_asset_distribution` performs its three sub-calls
(spot, futures, margin) unconditionally; when exactly one of the three
try blocks fails, the output is still the heading followed by the two
successfully rendered sections, with the failing section rendered as the
Markdown it had already appended (empty when the sub-call itself failed,
as the last two conjuncts state) followed by its inline error line — no
single failure aborts the others. -/
theorem C8_asset_distribution_single_failure (cfg : Config) (net : Net)
    (e s f m p : String) (h : credsMissing cfg = false) :
    (get_asset_distribution cfg net).2
      = [assetDistSpotSent, assetDistFuturesSent, assetDistMarginSent]
    ∧ (assetDistSpotBody (net assetDistSpotSent) = .error e →
       assetDistFuturesSteps (net assetDistFuturesSent) = (f, none) →
       assetDistMarginSteps (net assetDistMarginSent) = (m, none) →
       (get_asset_distribution cfg net).1
         = "# 🎯 Portfolio Distribution Snapshot\n\n"
           ++ ("## 💼 Spot Account\n\n❌ Error: " ++ e ++ "\n\n") ++ f ++ m)
    ∧ (assetDistSpotBody (net assetDistSpotSent) = .ok s →
       assetDistFuturesSteps (net assetDistFuturesSent) = (p, some e) →
       assetDistMarginSteps (net assetDistMarginSent) = (m, none) →
       (get_asset_distribution cfg net).1
         = "# 🎯 Portfolio Distribution Snapshot\n\n"
           ++ s ++ (p ++ "## 🎯 USDT-M Futures\n\n❌ Error: " ++ e ++ "\n\n") ++ m)
    ∧ (assetDistSpotBody (net assetDistSpotSent) = .ok s →
       assetDistFuturesSteps (net assetDistFuturesSent) = (f, none) →
       assetDistMarginSteps (net assetDistMarginSent) = (p, some e) →
       (get_asset_distribution cfg net).1
         = "# 🎯 Portfolio Distribution Snapshot\n\n"
           ++ s ++ f ++ (p ++ "## 🔄 Cross Margin\n\n❌ Error: " ++ e ++ "\n\n"))
    ∧ assetDistFuturesSteps (.error e) = ("", some e)
    ∧ assetDistMarginSteps (.error e) = ("", some e) := by
  refine ⟨by simp [get_asset_distribution, h], ?_, ?_, ?_, rfl, rfl⟩ <;>
    (intro h1 h2 h3
     simp [get_asset_distribution, h, assetDistSpotSection,
       assetDistFuturesSection, assetDistMarginSection, h1, h2, h3])

/-- Witness for C8, in two scenarios: the spot sub-call fails at the HTTP
level (error line alone, other two sections fully rendered), and the
futures rendering fails mid-way on a missing field (partial lines kept
before the inline error heading, the other two sections fully rendered). -/
theorem C8_witness :
    credsMissing cfgTest = false
    ∧ assetDistSpotBody (netC8 assetDistSpotSent) = .error "HTTPStatusError"
    ∧ assetDistFuturesSteps (netC8 assetDistFuturesSent)
        = ("## 🎯 USDT-M Futures\n\n- **Total Wallet Balance:** $100.00\n- **Unrealized Profit:** $5.00\n\n", none)
    ∧ assetDistMarginSteps (netC8 assetDistMarginSent)
        = ("## 🔄 Cross Margin\n\n- **Total Net Asset (BTC):** 0.50000000\n- **Margin Level:** 999.0000\n\n", none)
    ∧ (get_asset_distribution cfgTest netC8).1
        = "# 🎯 Portfolio Distribution Snapshot\n\n"
          ++ "## 💼 Spot Account\n\n❌ Error: HTTPStatusError\n\n"
          ++ "## 🎯 USDT-M Futures\n\n- **Total Wallet Balance:** $100.00\n- **Unrealized Profit:** $5.00\n\n"
          ++ "## 🔄 Cross Margin\n\n- **Total Net Asset (BTC):** 0.50000000\n- **Margin Level:** 999.0000\n\n"
    ∧ assetDistSpotBody (netC8midRender assetDistSpotSent)
        = .ok "## 💼 Spot Account\n\n_No spot balances_\n\n"
    ∧ assetDistFuturesSteps (netC8midRender assetDistFuturesSent)
        = ("## 🎯 USDT-M Futures\n\n- **Total Wallet Balance:** $100.00\n",
           some "KeyError: totalUnrealizedProfit")
    ∧ (get_asset_distribution cfgTest netC8midRender).1
        = "# 🎯 Portfolio Distribution Snapshot\n\n"
          ++ "## 💼 Spot Account\n\n_No spot balances_\n\n"
          ++ ("## 🎯 USDT-M Futures\n\n- **Total Wallet Balance:** $100.00\n"
            ++ "## 🎯 USDT-M Futures\n\n❌ Error: KeyError: totalUnrealizedProfit\n\n")
          ++ "## 🔄 Cross Margin\n\n- **Total Net Asset (BTC):** 0.50000000\n- **Margin Level:** 999.0000\n\n" := by
  refine ⟨rfl, rfl, rfl, rfl, ?_, rfl, rfl, ?_⟩
  · exact (C8_asset_distribution_single_failure cfgTest netC8 "HTTPStatusError" ""
      "## 🎯 USDT-M Futures\n\n- **Total Wallet Balance:** $100.00\n- **Unrealized Profit:** $5.00\n\n"
      "## 🔄 Cross Margin\n\n- **Total Net Asset (BTC):** 0.50000000\n- **Margin Level:** 999.0000\n\n"
      "" rfl).2.1 rfl rfl rfl
  · exact (C8_asset_distribution_single_failure cfgTest netC8midRender
      "KeyError: totalUnrealizedProfit"
      "## 💼 Spot Account\n\n_No spot balances_\n\n" ""
      "## 🔄 Cross Margin\n\n- **Total Net Asset (BTC):** 0.50000000\n- **Margin Level:** 999.0000\n\n"
      "## 🎯 USDT-M Futures\n\n- **Total Wallet Balance:** $100.00\n" rfl).2.2.1 rfl rfl rfl
